import Mathlib

/-!
A shallow embedding of the SLR(1) parser generator and driver from
`pl0_parser.py` (class `SLRParser`) of the PL0_Complier repository.

Encoding conventions:
* Grammar symbols (Python strings) are encoded as natural-number codes;
  the table of codes is given below next to each symbol name.
* An LR(0) item `(lhs, rhs, dot)` is encoded as the natural number
  `prodIdx * 8 + dot`, where `prodIdx` is the index of the production
  `(lhs, rhs)` in the augmented production list (all productions are
  pairwise distinct, and every right-hand side has length < 8, so the
  encoding is a bijection on the item universe).
* A Python `frozenset` of items is represented by the strictly sorted
  list of its item codes, so that structural set equality becomes list
  equality and the representation is canonical.
* Python dict / defaultdict(None) tables are represented by association
  lists; a missing key is `Option.none`.
-/

namespace PL0

abbrev Sym := Nat

/-- Insert into a strictly sorted `List Nat`, keeping it sorted and
duplicate-free.  This is the set-insert of our canonical set encoding. -/
def sortedInsert (x : Nat) : List Nat → List Nat
  | [] => [x]
  | y :: ys =>
    if x < y then x :: y :: ys
    else if x = y then y :: ys
    else y :: sortedInsert x ys

/-- Set union on canonical sorted lists (fold of `sortedInsert`). -/
def listUnion (a b : List Nat) : List Nat :=
  b.foldl (fun acc x => sortedInsert x acc) a

/-- Turn an arbitrary list into the canonical sorted duplicate-free form. -/
def toSorted (l : List Nat) : List Nat :=
  l.foldl (fun acc x => sortedInsert x acc) []

/-- First-occurrence-order deduplication (used where Python iterates a set
whose iteration order is immaterial to the final result). -/
def dedupFO (l : List Nat) : List Nat :=
  (l.foldl (fun acc x => if acc.contains x then acc else acc ++ [x]) [])

/-- Replace the element at an index of a list (no-op when out of range). -/
def updateAt {α : Type} : Nat → (α → α) → List α → List α
  | _, _, [] => []
  | 0, f, x :: xs => f x :: xs
  | n + 1, f, x :: xs => x :: updateAt n f xs

/-! ## Symbol codes

Nonterminals (left-hand sides of the grammar, plus the augmented start
symbol `S`):
  0 S, 1 program, 2 block, 3 consts, 4 const_list, 5 const_list_tail,
  6 vars, 7 id_list, 8 id_list_tail, 9 procs, 10 statement, 11 stmt_list,
  12 stmt_list_tail, 13 expression, 14 expression_tail, 15 term,
  16 term_tail, 17 factor, 18 condition, 19 relop.

Terminals:
  20 ".", 21 CONST, 22 ";", 23 ID, 24 "=", 25 NUMBER, 26 ",", 27 VAR,
  28 PROCEDURE, 29 ASSIGN, 30 CALL, 31 BEGIN, 32 END, 33 IF, 34 THEN,
  35 WHILE, 36 DO, 37 READ, 38 "(", 39 ")", 40 WRITE, 41 "+", 42 "-",
  43 "*", 44 "/", 45 ODD, 46 "#", 47 "<", 48 ">", 49 "<=", 50 ">=".

Special markers: 51 is the end marker "$", 52 is the empty marker ""
(epsilon) used inside the FIRST/FOLLOW computation, 53 is the token kind
string "SYMBOL".  Other strings occurring only as token literal values
(identifier spellings, number spellings, lowercase keyword spellings)
are encoded by fresh codes ≥ 60.
-/

def dollar : Sym := 51
def epsMark : Sym := 52
def symbolKind : Sym := 53

/-- The grammar `G` of `_build_grammar` (the simplified PL/0 subset),
production by production, in source order, under the symbol coding above. -/
def baseProductions : List (Sym × List Sym) :=
  [ (1, [2, 20]),               -- program -> block .
    (2, [3, 6, 9, 10]),         -- block -> consts vars procs statement
    (3, []),                    -- consts -> ε
    (3, [21, 4, 22]),           -- consts -> CONST const_list ;
    (4, [23, 24, 25, 5]),       -- const_list -> ID = NUMBER const_list_tail
    (5, []),                    -- const_list_tail -> ε
    (5, [26, 23, 24, 25, 5]),   -- const_list_tail -> , ID = NUMBER const_list_tail
    (6, []),                    -- vars -> ε
    (6, [27, 7, 22]),           -- vars -> VAR id_list ;
    (7, [23, 8]),               -- id_list -> ID id_list_tail
    (8, []),                    -- id_list_tail -> ε
    (8, [26, 23, 8]),           -- id_list_tail -> , ID id_list_tail
    (9, []),                    -- procs -> ε
    (9, [28, 23, 22, 2, 22, 9]), -- procs -> PROCEDURE ID ; block ; procs
    (10, []),                   -- statement -> ε
    (10, [23, 29, 13]),         -- statement -> ID ASSIGN expression
    (10, [30, 23]),             -- statement -> CALL ID
    (10, [31, 11, 32]),         -- statement -> BEGIN stmt_list END
    (10, [33, 18, 34, 10]),     -- statement -> IF condition THEN statement
    (10, [35, 18, 36, 10]),     -- statement -> WHILE condition DO statement
    (10, [37, 38, 23, 39]),     -- statement -> READ ( ID )
    (10, [40, 38, 13, 39]),     -- statement -> WRITE ( expression )
    (11, [10, 12]),             -- stmt_list -> statement stmt_list_tail
    (12, []),                   -- stmt_list_tail -> ε
    (12, [22, 10, 12]),         -- stmt_list_tail -> ; statement stmt_list_tail
    (13, [15, 14]),             -- expression -> term expression_tail
    (14, []),                   -- expression_tail -> ε
    (14, [41, 15, 14]),         -- expression_tail -> + term expression_tail
    (14, [42, 15, 14]),         -- expression_tail -> - term expression_tail
    (15, [17, 16]),             -- term -> factor term_tail
    (16, []),                   -- term_tail -> ε
    (16, [43, 17, 16]),         -- term_tail -> * factor term_tail
    (16, [44, 17, 16]),         -- term_tail -> / factor term_tail
    (17, [23]),                 -- factor -> ID
    (17, [25]),                 -- factor -> NUMBER
    (17, [38, 13, 39]),         -- factor -> ( expression )
    (18, [45, 13]),             -- condition -> ODD expression
    (18, [13, 19, 13]),         -- condition -> expression relop expression
    (19, [24]),                 -- relop -> =
    (19, [46]),                 -- relop -> #
    (19, [47]),                 -- relop -> <
    (19, [48]),                 -- relop -> >
    (19, [49]),                 -- relop -> <=
    (19, [50]) ]                -- relop -> >=

/-- The start symbol `'S'` (code 0). -/
def startSymbol : Sym := 0

/-- `_collect_symbols`, first part: the nonterminal set is the set of all
left-hand sides (collected before augmentation). -/
def nonterminalsBase : List Sym := dedupFO (baseProductions.map (·.1))

/-- `all_rhs_syms` of `_collect_symbols`: every symbol occurring in some
right-hand side. -/
def allRhsSyms : List Sym :=
  dedupFO ((baseProductions.map (·.2)).flatten)

/-- `self.terminals = set(s for s in all_rhs_syms if s not in self.nonterminals)`. -/
def terminals : List Sym := allRhsSyms.filter (fun s => !(nonterminalsBase.contains s))

/-- `_augment_grammar`: prepend the production `S -> program`. -/
def productions : List (Sym × List Sym) := (startSymbol, [1]) :: baseProductions

/-- After augmentation the start symbol is also recorded as a nonterminal. -/
def nonterminals : List Sym := nonterminalsBase ++ [startSymbol]

/-! ## Items

Functions that read `self.<attribute>` in the source take that attribute as
an explicit parameter here (`nts` for `self.nonterminals`, `ts` for
`self.terminals`, `trans` for `self.transitions`, `F` for `self.FIRST`,
`FL` for `self.FOLLOW`); the top-level definitions wire in the computed
pipeline values. -/

/-- Decode an item code into the production it refers to. -/
def itemProd (c : Nat) : Sym × List Sym := productions.getD (c / 8) (0, [])

def itemLhs (c : Nat) : Sym := (itemProd c).1
def itemRhs (c : Nat) : List Sym := (itemProd c).2
def itemDot (c : Nat) : Nat := c % 8

/-- The symbol immediately after the dot, when the dot is not at the end. -/
def afterDot (c : Nat) : Option Sym := (itemRhs c).get? (itemDot c)

/-- One pass of the `while added` loop of `_closure`: add, for every item
of `c` whose dot stands before a nonterminal `B`, the item `B -> . γ` of
every production with left-hand side `B` (a set-insert, so items already
present are not duplicated). -/
def closurePass (nts : List Sym) (c : List Nat) : List Nat :=
  c.foldl
    (fun acc it =>
      match afterDot it with
      | none => acc
      | some B =>
        if nts.contains B then
          productions.enum.foldl
            (fun acc2 jp => if jp.2.1 == B then sortedInsert (jp.1 * 8) acc2 else acc2)
            acc
        else acc)
    c

/-- `_closure`, as a fuelled fixed point of `closurePass` (the Python loop
stops when a pass adds nothing; the item universe has fewer than 368
elements, so fuel 400 always reaches the fixed point). -/
def closureFuel (nts : List Sym) : Nat → List Nat → List Nat
  | 0, c => c
  | fuel + 1, c =>
    let c' := closurePass nts c
    if c' == c then c else closureFuel nts fuel c'

def closure (nts : List Sym) (c : List Nat) : List Nat := closureFuel nts 400 c

/-- `_goto`: advance the dot over `X` in every item that allows it, close
the result; `none` when no item moves. -/
def gotoSets (nts : List Sym) (st : List Nat) (X : Sym) : Option (List Nat) :=
  let moved := toSorted ((st.filter (fun it => afterDot it == some X)).map (· + 1))
  if moved.isEmpty then none else some (closure nts moved)

/-- The initial state `closure({S -> . program})` (item code 0). -/
def initState : List Nat := closure nonterminals [0]

/-- One exploration step of `_items`: process the state at index `i` of the
growing collection, computing `goto` on every symbol that appears after a
dot and appending newly discovered states; record every transition. -/
def itemsLoop (nts : List Sym) :
    Nat → List (List Nat) → Nat → List ((Nat × Sym) × Nat) →
    List (List Nat) × List ((Nat × Sym) × Nat)
  | 0, C, _, T => (C, T)
  | fuel + 1, C, i, T =>
    match C.get? i with
    | none => (C, T)
    | some I =>
      let syms := dedupFO (I.filterMap afterDot)
      let step := syms.foldl
        (fun (acc : List (List Nat) × List ((Nat × Sym) × Nat)) X =>
          match gotoSets nts I X with
          | none => acc
          | some J =>
            match acc.1.indexOf? J with
            | some j => (acc.1, acc.2 ++ [((i, X), j)])
            | none => (acc.1 ++ [J], acc.2 ++ [((i, X), acc.1.length)]))
        (C, T)
      itemsLoop nts fuel step.1 (i + 1) step.2

/-- `_items` / `_build_canonical_collection`: the canonical collection and
its transition table (fuel 200 exceeds any possible number of states). -/
def canonical : List (List Nat) × List ((Nat × Sym) × Nat) :=
  itemsLoop nonterminals 200 [initState] 0 []

def states : List (List Nat) := canonical.1
def transitions : List ((Nat × Sym) × Nat) := canonical.2

/-- `self.transitions.get((i, X))`. -/
def transLookup (trans : List ((Nat × Sym) × Nat)) (i : Nat) (X : Sym) : Option Nat :=
  (trans.find? (fun e => e.1.1 == i && e.1.2 == X)).map (·.2)

/-! ## FIRST / FOLLOW (`_compute_first_follow`)

`FIRST` and `FOLLOW` are dicts keyed by nonterminal; since nonterminal
codes are `0..19` we store them as lists of 20 sorted sets, indexed by the
nonterminal code. -/

/-- `first_of_sequence`, the loop over the sequence, as a recursion on the
remaining suffix (the `for ... else` adds the empty marker when the loop
runs off the end). -/
def firstSeqGo (ts nts : List Sym) (F : List (List Nat)) : List Sym → List Nat
  | [] => [epsMark]
  | sym :: rest =>
    if ts.contains sym then [sym]
    else if nts.contains sym then
      let f := F.getD sym []
      let base := f.filter (· != epsMark)
      if f.contains epsMark then listUnion base (firstSeqGo ts nts F rest) else base
    else [sym]

/-- `first_of_sequence(seq)`: the empty sequence yields `{''}` at once. -/
def firstOfSequence (ts nts : List Sym) (F : List (List Nat)) (seq : List Sym) : List Nat :=
  match seq with
  | [] => [epsMark]
  | _ => firstSeqGo ts nts F seq

/-- One full pass of the FIRST `while changed` loop over all productions
(in-place dict updates are threaded through the fold, as in the source). -/
def firstPass (ts nts : List Sym) (F : List (List Nat)) : List (List Nat) :=
  productions.foldl
    (fun F p =>
      if p.2.isEmpty then updateAt p.1 (sortedInsert epsMark) F
      else updateAt p.1 (fun s => listUnion s (firstOfSequence ts nts F p.2)) F)
    F

/-- The FIRST fixed point (the loop stops when a pass changes nothing;
the sets only grow inside a finite universe, so fuel 100 suffices). -/
def firstFixpoint (ts nts : List Sym) : Nat → List (List Nat) → List (List Nat)
  | 0, F => F
  | fuel + 1, F =>
    let F' := firstPass ts nts F
    if F' == F then F else firstFixpoint ts nts fuel F'

/-- `self.FIRST` after `_compute_first_follow`. -/
def FIRSTfinal : List (List Nat) :=
  firstFixpoint terminals nonterminals 100 (List.replicate 20 [])

/-- The inline `first_beta` loop of the FOLLOW computation (it reads the
already-converged `self.FIRST`); like `first_of_sequence`, the
`for ... else` adds the empty marker when the loop completes. -/
def firstBetaGo (ts nts : List Sym) (F : List (List Nat)) : List Sym → List Nat
  | [] => [epsMark]
  | sym :: rest =>
    if ts.contains sym then [sym]
    else if nts.contains sym then
      let f := F.getD sym []
      let base := f.filter (· != epsMark)
      if f.contains epsMark then listUnion base (firstBetaGo ts nts F rest) else base
    else [sym]

/-- `first_beta` for a suffix `beta` (`{''}` when `beta` is empty). -/
def firstBeta (ts nts : List Sym) (F : List (List Nat)) (beta : List Sym) : List Nat :=
  match beta with
  | [] => [epsMark]
  | _ => firstBetaGo ts nts F beta

/-- One full pass of the FOLLOW `while changed` loop: for every occurrence
of a nonterminal `B` in a right-hand side, add `first_beta - {''}` to
`FOLLOW(B)`, plus `FOLLOW(lhs)` when `first_beta` contains `''`. -/
def followPass (ts nts : List Sym) (F : List (List Nat)) (FL : List (List Nat)) :
    List (List Nat) :=
  productions.foldl
    (fun FL p =>
      (List.range p.2.length).foldl
        (fun FL i =>
          let B := p.2.getD i 0
          if nts.contains B then
            let fb := firstBeta ts nts F (p.2.drop (i + 1))
            if fb.contains epsMark then
              updateAt B
                (fun s => listUnion s
                  (listUnion (FL.getD p.1 []) (fb.filter (· != epsMark)))) FL
            else
              updateAt B (fun s => listUnion s fb) FL
          else FL)
        FL)
    FL

/-- The FOLLOW fixed point. -/
def followFixpoint (ts nts : List Sym) (F : List (List Nat)) :
    Nat → List (List Nat) → List (List Nat)
  | 0, FL => FL
  | fuel + 1, FL =>
    let FL' := followPass ts nts F FL
    if FL' == FL then FL else followFixpoint ts nts F fuel FL'

/-- The initial FOLLOW map: empty everywhere except `FOLLOW(S) = {'$'}`. -/
def followInit : List (List Nat) :=
  updateAt startSymbol (fun _ => [dollar]) (List.replicate 20 [])

/-- `self.FOLLOW` after `_compute_first_follow`. -/
def FOLLOWfinal : List (List Nat) :=
  followFixpoint terminals nonterminals FIRSTfinal 100 followInit

/-! ## ACTION / GOTO table (`_build_parsing_table`) -/

/-- A parsing action: `('s', t)`, `('r', p)` or `('acc',)`. -/
inductive Action where
  | shift (t : Nat)
  | reduce (p : Nat)
  | accept
deriving DecidableEq

/-- Dict lookup in an action row. -/
def lookupRow (row : List (Sym × Action)) (a : Sym) : Option Action :=
  (row.find? (fun e => e.1 == a)).map (·.2)

/-- Dict assignment `row[a] = v` (overwrites an existing binding). -/
def setCell (row : List (Sym × Action)) (a : Sym) (v : Action) : List (Sym × Action) :=
  if row.any (fun e => e.1 == a) then
    row.map (fun e => if e.1 == a then (a, v) else e)
  else row ++ [(a, v)]

/-- The `for idx, prod in enumerate(prod_list): ... break / else continue`
search for the production index of a complete item. -/
def findProdIdx (lhs : Sym) (rhs : List Sym) : Option Nat :=
  productions.findIdx? (fun p => p.1 == lhs && p.2 == rhs)

/-- Build the ACTION row of state `i` from its item set, also returning the
list of every attempted cell assignment in discovery order (the `events`);
shift and accept assignments overwrite, reduce assignments are recorded
only when the cell is still unset — exactly as in the source. -/
def buildRow (ts nts : List Sym) (trans : List ((Nat × Sym) × Nat))
    (FL : List (List Nat)) (i : Nat) (I : List Nat) :
    List (Sym × Action) × List ((Nat × Sym) × Action) :=
  I.foldl
    (fun acc it =>
      match afterDot it with
      | some a =>
        if ts.contains a || !(nts.contains a) then
          match transLookup trans i a with
          | some t => (setCell acc.1 a (.shift t), acc.2 ++ [((i, a), .shift t)])
          | none => acc
        else acc
      | none =>
        if itemLhs it == startSymbol then
          (setCell acc.1 dollar .accept, acc.2 ++ [((i, dollar), .accept)])
        else
          match findProdIdx (itemLhs it) (itemRhs it) with
          | none => acc
          | some pidx =>
            (FL.getD (itemLhs it) []).foldl
              (fun acc2 a =>
                let ev2 := acc2.2 ++ [((i, a), Action.reduce pidx)]
                if (lookupRow acc2.1 a).isNone then
                  (acc2.1 ++ [(a, Action.reduce pidx)], ev2)
                else (acc2.1, ev2))
              acc)
    ([], [])

/-- All rows with their assignment events. -/
def rowsAndEvents (sts : List (List Nat)) (ts nts : List Sym)
    (trans : List ((Nat × Sym) × Nat)) (FL : List (List Nat)) :
    List (List (Sym × Action) × List ((Nat × Sym) × Action)) :=
  sts.enum.map (fun p => buildRow ts nts trans FL p.1 p.2)

/-- `self.action`: the ACTION table, one row per state. -/
def actionTable : List (List (Sym × Action)) :=
  (rowsAndEvents states terminals nonterminals transitions FOLLOWfinal).map (·.1)

/-- Every attempted ACTION-cell assignment, in discovery order. -/
def assignEvents : List ((Nat × Sym) × Action) :=
  ((rowsAndEvents states terminals nonterminals transitions FOLLOWfinal).map (·.2)).flatten

/-- One GOTO row: `row[A] = transitions[(i, A)]` for every nonterminal `A`
with a transition. -/
def gotoRowFn (nts : List Sym) (trans : List ((Nat × Sym) × Nat)) (i : Nat) :
    List (Sym × Nat) :=
  nts.foldl
    (fun row A =>
      match transLookup trans i A with
      | some t => row ++ [(A, t)]
      | none => row)
    []

/-- `self.goto`: the GOTO table, one row per state. -/
def gotoTable : List (List (Sym × Nat)) :=
  (List.range states.length).map (gotoRowFn nonterminals transitions)

/-- ACTION lookup for state `i`, terminal `a`. -/
def actionLookup (i : Nat) (a : Sym) : Option Action :=
  lookupRow (actionTable.getD i []) a

/-! ## The parse driver (`_token_to_terminal`, `parse`) -/

/-- A Python value occurring inside a token tuple: a string (encoded by its
symbol code) or an integer.  A token is an arbitrary tuple of such values;
the lexer convention is the pair `(sym_type, sym_val)`. -/
inductive PyVal where
  | vsym (s : Sym)
  | vint (n : Int)
deriving DecidableEq

abbrev Token := List PyVal

/-- The distinguishable outcomes of `parse` other than acceptance. -/
inductive ParseErr where
  /-- `ValueError` from unpacking a token that is not a pair. -/
  | unpackError
  /-- `SyntaxError(f"Unexpected token {tok} at line {line_no}")`. -/
  | syntaxAtLine (tok : Token) (line : Int)
  /-- `SyntaxError(f"Unexpected token {tok} at position {ip}")`. -/
  | syntaxAtPos (tok : Option Token) (pos : Nat)
  /-- `SyntaxError("Invalid goto after reduction ...")`. -/
  | invalidGoto (lhs : Sym)
  /-- `IndexError` on `terms[ip]` (never reached, see the claims). -/
  | cursorError
  /-- `IndexError` on popping or reading the top of an empty stack. -/
  | stackError
  /-- `IndexError` on `self.productions[prod_idx]`. -/
  | prodIndexError
  /-- Artifact of the fuelled embedding of the `while True` loop. -/
  | outOfFuel

/-- `_token_to_terminal`: unpack `(sym_type, sym_val)` — a `ValueError`
when the token is not a pair — and classify: a `SYMBOL` token is looked up
by its literal text, every other token by its kind. -/
def tokenToTerminal (token : Token) : Except ParseErr PyVal :=
  match token with
  | [k, v] => .ok (if k = .vsym symbolKind then v else k)
  | _ => .error .unpackError

/-- Dict lookup of a Python value in an action row keyed by strings: an
integer never equals a string key. -/
def lookupActionPy (row : List (Sym × Action)) (a : PyVal) : Option Action :=
  match a with
  | .vsym s => lookupRow row s
  | .vint _ => none

/-- The line-number extraction of the error path: the first integer among
the token components at indices `2 ≤ idx < min(len(tok), 6)`. -/
def extractLine (tok : Token) : Option Int :=
  ((tok.drop 2).take 4).findSome?
    (fun v => match v with | .vint n => some n | _ => none)

/-- Construction of the `SyntaxError` for an undefined ACTION cell: report
the token's line when one can be extracted, the cursor position otherwise
(`tok` is `None` when the cursor is past the last real token). -/
def mkSyntaxError (tokens : List Token) (ip : Nat) : ParseErr :=
  match tokens.get? ip with
  | none => .syntaxAtPos none ip
  | some tok =>
    match extractLine tok with
    | some n => .syntaxAtLine tok n
    | none => .syntaxAtPos (some tok) ip

/-- The state of an `SLRParser` instance after `__init__`: the token list
it was constructed from, and every table computed by the construction. -/
structure SLRParser where
  tokens : List Token
  terminals : List Sym
  nonterminals : List Sym
  productions : List (Sym × List Sym)
  startSymbol : Sym
  states : List (List Nat)
  transitions : List ((Nat × Sym) × Nat)
  FIRST : List (List Nat)
  FOLLOW : List (List Nat)
  action : List (List (Sym × Action))
  goto : List (List (Sym × Nat))

/-- `SLRParser.__init__(tokens)`: store the tokens and run the whole
construction pipeline (grammar, symbol classification, canonical
collection, FIRST/FOLLOW, ACTION/GOTO); the tables depend only on the
fixed grammar, never on the tokens. -/
def SLRParser.init (toks : List Token) : SLRParser :=
  { tokens := toks
    terminals := PL0.terminals
    nonterminals := PL0.nonterminals
    productions := PL0.productions
    startSymbol := PL0.startSymbol
    states := PL0.states
    transitions := PL0.transitions
    FIRST := FIRSTfinal
    FOLLOW := FOLLOWfinal
    action := actionTable
    goto := gotoTable }

/-- Dict lookup in a GOTO row of a parser instance. -/
def gotoGet (p : SLRParser) (t : Nat) (A : Sym) : Option Nat :=
  ((p.goto.getD t []).find? (fun e => e.1 == A)).map (·.2)

/-- The fuel given to the embedded `while True` loop; the termination
development below proves it is never exhausted. -/
def parseFuel (n : Nat) : Nat := 21 * n + 28

/-- The `while True` shift-reduce-goto loop of `parse`, with fuel standing
in for the unbounded loop (the stack is kept top-first). -/
def SLRParser.parseLoop (p : SLRParser) (terms : List PyVal) :
    Nat → List Nat → Nat → Except ParseErr Bool
  | 0, _, _ => .error .outOfFuel
  | fuel + 1, stack, ip =>
    match stack with
    | [] => .error .stackError
    | state :: _ =>
      match terms.get? ip with
      | none => .error .cursorError
      | some a =>
        match lookupActionPy (p.action.getD state []) a with
        | none => .error (mkSyntaxError p.tokens ip)
        | some (.shift t) => p.parseLoop terms fuel (t :: stack) (ip + 1)
        | some (.reduce pidx) =>
          match p.productions.get? pidx with
          | none => .error .prodIndexError
          | some pr =>
            match stack.drop pr.2.length with
            | [] => .error .stackError
            | t :: rest =>
              match gotoGet p t pr.1 with
              | none => .error (.invalidGoto pr.1)
              | some g => p.parseLoop terms fuel (g :: t :: rest) ip
        | some .accept => .ok true

/-- `[self._token_to_terminal(t) for t in self.tokens]`: classify every
token, propagating the first classification failure. -/
def mapTerminals : List Token → Except ParseErr (List PyVal)
  | [] => .ok []
  | t :: ts =>
    match tokenToTerminal t with
    | .error e => .error e
    | .ok a =>
      match mapTerminals ts with
      | .error e => .error e
      | .ok rest => .ok (a :: rest)

/-- `parse`: classify every token (the appended end marker becomes `'$'`),
then run the loop from stack `[0]`, cursor `0`. -/
def SLRParser.parse (p : SLRParser) : Except ParseErr Bool :=
  match mapTerminals p.tokens with
  | .error e => .error e
  | .ok terms =>
    p.parseLoop (terms ++ [.vsym dollar]) (parseFuel p.tokens.length) [0] 0

/-- `parse_tokens_with_slr`: build a parser instance from the tokens and
run it. -/
def parseTokensWithSlr (toks : List Token) : Except ParseErr Bool :=
  (SLRParser.init toks).parse

/-- Follow a sequence of grammar symbols through a transition table. -/
def followPath (trans : List ((Nat × Sym) × Nat)) (u : Nat) (γ : List Sym) : Option Nat :=
  γ.foldl (fun acc X => acc.bind (fun t => transLookup trans t X)) (some u)

/-- The length of a shortest terminal string derivable from a symbol
(terminals weigh 1, nullable nonterminals 0); used only by the
termination development, not by the embedded code. -/
def wSym (x : Sym) : Nat :=
  if x ∈ [2, 3, 5, 6, 8, 9, 10, 11, 12, 14, 16, 52, 53] then 0
  else if x = 4 then 3
  else if x = 18 then 2
  else 1

/-- Whether reducing by this production strictly decreases total stack
weight (the right-hand side outweighs the left-hand side). -/
def prodWeightDrop (p : Sym × List Sym) : Bool :=
  wSym p.1 < (p.2.map wSym).sum

/-! ## Computed literal tables

The following literal values are the (one-time) evaluations of the
construction pipeline above; the bridge theorems below prove them equal to
the definitions, so later theorems can compute over them cheaply.
`transMatrixLit` regroups `transitionsLit` into one row per state, and
`wStateLit` / `rankLit` are the auxiliary weight and rank tables of the
termination development. -/

def terminalsLit : List Sym :=
  [20, 21, 22, 23, 24, 25, 26, 27, 28, 29, 30, 31, 32, 33, 34, 35, 36, 37,
   38, 39, 40, 41, 42, 43, 44, 45, 46, 47, 48, 49, 50]

def nonterminalsLit : List Sym :=
  [1, 2, 3, 4, 5, 6, 7, 8, 9, 10, 11, 12, 13, 14, 15, 16, 17, 18, 19, 0]

def statesLit : List (List Nat) := [[0, 8, 16, 24, 32],
 [1],
 [9],
 [17, 64, 72],
 [33, 40],
 [10],
 [18, 104, 112],
 [73, 80],
 [34],
 [41],
 [19, 120, 128, 136, 144, 152, 160, 168, 176],
 [113],
 [74],
 [81, 88, 96],
 [35],
 [42],
 [20],
 [129],
 [137],
 [120, 128, 136, 144, 145, 152, 160, 168, 176, 184],
 [153, 208, 240, 272, 280, 288, 296, 304],
 [161, 208, 240, 272, 280, 288, 296, 304],
 [169],
 [177],
 [114],
 [75],
 [82],
 [97],
 [43, 48, 56],
 [130, 208, 240, 272, 280, 288],
 [138],
 [146],
 [185, 192, 200],
 [154],
 [209, 216, 224, 232],
 [241, 248, 256, 264],
 [273],
 [281],
 [208, 240, 272, 280, 288, 289],
 [208, 240, 272, 280, 288, 297],
 [305, 312, 320, 328, 336, 344, 352],
 [162],
 [170],
 [178, 208, 240, 272, 280, 288],
 [16, 24, 32, 115],
 [88, 96, 98],
 [44],
 [57],
 [131],
 [147],
 [186],
 [120, 128, 136, 144, 152, 160, 168, 176, 201],
 [120, 128, 136, 144, 152, 155, 160, 168, 176],
 [210],
 [225, 240, 272, 280, 288],
 [233, 240, 272, 280, 288],
 [242],
 [257, 272, 280, 288],
 [265, 272, 280, 288],
 [290],
 [298],
 [208, 240, 272, 280, 288, 306],
 [313],
 [321],
 [329],
 [337],
 [345],
 [353],
 [120, 128, 136, 144, 152, 160, 163, 168, 176],
 [171],
 [179],
 [116],
 [99],
 [58],
 [192, 200, 202],
 [156],
 [216, 224, 226, 232],
 [216, 224, 232, 234],
 [248, 256, 258, 264],
 [248, 256, 264, 266],
 [291],
 [307],
 [164],
 [172],
 [180],
 [104, 112, 117],
 [59],
 [203],
 [227],
 [235],
 [259],
 [267],
 [118],
 [48, 56, 60],
 [61]]
def transitionsLit : List ((Nat × Sym) × Nat) := [((0, 1), 1),
 ((0, 2), 2),
 ((0, 3), 3),
 ((0, 21), 4),
 ((2, 20), 5),
 ((3, 6), 6),
 ((3, 27), 7),
 ((4, 4), 8),
 ((4, 23), 9),
 ((6, 9), 10),
 ((6, 28), 11),
 ((7, 7), 12),
 ((7, 23), 13),
 ((8, 22), 14),
 ((9, 24), 15),
 ((10, 10), 16),
 ((10, 23), 17),
 ((10, 30), 18),
 ((10, 31), 19),
 ((10, 33), 20),
 ((10, 35), 21),
 ((10, 37), 22),
 ((10, 40), 23),
 ((11, 23), 24),
 ((12, 22), 25),
 ((13, 8), 26),
 ((13, 26), 27),
 ((15, 25), 28),
 ((17, 29), 29),
 ((18, 23), 30),
 ((19, 23), 17),
 ((19, 30), 18),
 ((19, 31), 19),
 ((19, 11), 31),
 ((19, 33), 20),
 ((19, 35), 21),
 ((19, 37), 22),
 ((19, 40), 23),
 ((19, 10), 32),
 ((20, 18), 33),
 ((20, 15), 34),
 ((20, 17), 35),
 ((20, 23), 36),
 ((20, 25), 37),
 ((20, 38), 38),
 ((20, 45), 39),
 ((20, 13), 40),
 ((21, 18), 41),
 ((21, 15), 34),
 ((21, 17), 35),
 ((21, 23), 36),
 ((21, 25), 37),
 ((21, 38), 38),
 ((21, 45), 39),
 ((21, 13), 40),
 ((22, 38), 42),
 ((23, 38), 43),
 ((24, 22), 44),
 ((27, 23), 45),
 ((28, 5), 46),
 ((28, 26), 47),
 ((29, 13), 48),
 ((29, 15), 34),
 ((29, 17), 35),
 ((29, 23), 36),
 ((29, 25), 37),
 ((29, 38), 38),
 ((31, 32), 49),
 ((32, 12), 50),
 ((32, 22), 51),
 ((33, 34), 52),
 ((34, 14), 53),
 ((34, 41), 54),
 ((34, 42), 55),
 ((35, 16), 56),
 ((35, 43), 57),
 ((35, 44), 58),
 ((38, 15), 34),
 ((38, 17), 35),
 ((38, 23), 36),
 ((38, 25), 37),
 ((38, 38), 38),
 ((38, 13), 59),
 ((39, 15), 34),
 ((39, 17), 35),
 ((39, 23), 36),
 ((39, 25), 37),
 ((39, 38), 38),
 ((39, 13), 60),
 ((40, 19), 61),
 ((40, 24), 62),
 ((40, 46), 63),
 ((40, 47), 64),
 ((40, 48), 65),
 ((40, 49), 66),
 ((40, 50), 67),
 ((41, 36), 68),
 ((42, 23), 69),
 ((43, 13), 70),
 ((43, 15), 34),
 ((43, 17), 35),
 ((43, 23), 36),
 ((43, 25), 37),
 ((43, 38), 38),
 ((44, 3), 3),
 ((44, 21), 4),
 ((44, 2), 71),
 ((45, 26), 27),
 ((45, 8), 72),
 ((47, 23), 73),
 ((51, 23), 17),
 ((51, 30), 18),
 ((51, 31), 19),
 ((51, 33), 20),
 ((51, 35), 21),
 ((51, 37), 22),
 ((51, 40), 23),
 ((51, 10), 74),
 ((52, 23), 17),
 ((52, 30), 18),
 ((52, 31), 19),
 ((52, 33), 20),
 ((52, 10), 75),
 ((52, 35), 21),
 ((52, 37), 22),
 ((52, 40), 23),
 ((54, 15), 76),
 ((54, 17), 35),
 ((54, 23), 36),
 ((54, 25), 37),
 ((54, 38), 38),
 ((55, 15), 77),
 ((55, 17), 35),
 ((55, 23), 36),
 ((55, 25), 37),
 ((55, 38), 38),
 ((57, 17), 78),
 ((57, 23), 36),
 ((57, 25), 37),
 ((57, 38), 38),
 ((58, 17), 79),
 ((58, 23), 36),
 ((58, 25), 37),
 ((58, 38), 38),
 ((59, 39), 80),
 ((61, 15), 34),
 ((61, 17), 35),
 ((61, 23), 36),
 ((61, 25), 37),
 ((61, 38), 38),
 ((61, 13), 81),
 ((68, 23), 17),
 ((68, 30), 18),
 ((68, 31), 19),
 ((68, 33), 20),
 ((68, 35), 21),
 ((68, 10), 82),
 ((68, 37), 22),
 ((68, 40), 23),
 ((69, 39), 83),
 ((70, 39), 84),
 ((71, 22), 85),
 ((73, 24), 86),
 ((74, 22), 51),
 ((74, 12), 87),
 ((76, 41), 54),
 ((76, 14), 88),
 ((76, 42), 55),
 ((77, 41), 54),
 ((77, 42), 55),
 ((77, 14), 89),
 ((78, 43), 57),
 ((78, 16), 90),
 ((78, 44), 58),
 ((79, 43), 57),
 ((79, 44), 58),
 ((79, 16), 91),
 ((85, 28), 11),
 ((85, 9), 92),
 ((86, 25), 93),
 ((93, 26), 47),
 ((93, 5), 94)]
def firstLit : List (List Nat) := [[20, 21, 23, 27, 28, 30, 31, 33, 35, 37, 40],
 [20, 21, 23, 27, 28, 30, 31, 33, 35, 37, 40],
 [21, 23, 27, 28, 30, 31, 33, 35, 37, 40, 52],
 [21, 52],
 [23],
 [26, 52],
 [27, 52],
 [23],
 [26, 52],
 [28, 52],
 [23, 30, 31, 33, 35, 37, 40, 52],
 [22, 23, 30, 31, 33, 35, 37, 40, 52],
 [22, 52],
 [23, 25, 38],
 [41, 42, 52],
 [23, 25, 38],
 [43, 44, 52],
 [23, 25, 38],
 [23, 25, 38, 45],
 [24, 46, 47, 48, 49, 50]]
def followLit : List (List Nat) := [[51],
 [51],
 [20, 22],
 [20, 22, 23, 27, 28, 30, 31, 33, 35, 37, 40],
 [22],
 [22],
 [20, 22, 23, 28, 30, 31, 33, 35, 37, 40],
 [22],
 [22],
 [20, 22, 23, 30, 31, 33, 35, 37, 40],
 [20, 22, 32],
 [32],
 [32],
 [20, 22, 24, 32, 34, 36, 39, 46, 47, 48, 49, 50],
 [20, 22, 24, 32, 34, 36, 39, 46, 47, 48, 49, 50],
 [20, 22, 24, 32, 34, 36, 39, 41, 42, 46, 47, 48, 49, 50],
 [20, 22, 24, 32, 34, 36, 39, 41, 42, 46, 47, 48, 49, 50],
 [20, 22, 24, 32, 34, 36, 39, 41, 42, 43, 44, 46, 47, 48, 49, 50],
 [34, 36],
 [23, 25, 38]]
def actionLit : List (List (Sym × Action)) := [[(20, PL0.Action.reduce 3),
  (22, PL0.Action.reduce 3),
  (23, PL0.Action.reduce 3),
  (27, PL0.Action.reduce 3),
  (28, PL0.Action.reduce 3),
  (30, PL0.Action.reduce 3),
  (31, PL0.Action.reduce 3),
  (33, PL0.Action.reduce 3),
  (35, PL0.Action.reduce 3),
  (37, PL0.Action.reduce 3),
  (40, PL0.Action.reduce 3),
  (21, PL0.Action.shift 4)],
 [(51, PL0.Action.accept)],
 [(20, PL0.Action.shift 5)],
 [(20, PL0.Action.reduce 8),
  (22, PL0.Action.reduce 8),
  (23, PL0.Action.reduce 8),
  (28, PL0.Action.reduce 8),
  (30, PL0.Action.reduce 8),
  (31, PL0.Action.reduce 8),
  (33, PL0.Action.reduce 8),
  (35, PL0.Action.reduce 8),
  (37, PL0.Action.reduce 8),
  (40, PL0.Action.reduce 8),
  (27, PL0.Action.shift 7)],
 [(23, PL0.Action.shift 9)],
 [(51, PL0.Action.reduce 1)],
 [(20, PL0.Action.reduce 13),
  (22, PL0.Action.reduce 13),
  (23, PL0.Action.reduce 13),
  (30, PL0.Action.reduce 13),
  (31, PL0.Action.reduce 13),
  (33, PL0.Action.reduce 13),
  (35, PL0.Action.reduce 13),
  (37, PL0.Action.reduce 13),
  (40, PL0.Action.reduce 13),
  (28, PL0.Action.shift 11)],
 [(23, PL0.Action.shift 13)],
 [(22, PL0.Action.shift 14)],
 [(24, PL0.Action.shift 15)],
 [(20, PL0.Action.reduce 15),
  (22, PL0.Action.reduce 15),
  (32, PL0.Action.reduce 15),
  (23, PL0.Action.shift 17),
  (30, PL0.Action.shift 18),
  (31, PL0.Action.shift 19),
  (33, PL0.Action.shift 20),
  (35, PL0.Action.shift 21),
  (37, PL0.Action.shift 22),
  (40, PL0.Action.shift 23)],
 [(23, PL0.Action.shift 24)],
 [(22, PL0.Action.shift 25)],
 [(22, PL0.Action.reduce 11), (26, PL0.Action.shift 27)],
 [(20, PL0.Action.reduce 4),
  (22, PL0.Action.reduce 4),
  (23, PL0.Action.reduce 4),
  (27, PL0.Action.reduce 4),
  (28, PL0.Action.reduce 4),
  (30, PL0.Action.reduce 4),
  (31, PL0.Action.reduce 4),
  (33, PL0.Action.reduce 4),
  (35, PL0.Action.reduce 4),
  (37, PL0.Action.reduce 4),
  (40, PL0.Action.reduce 4)],
 [(25, PL0.Action.shift 28)],
 [(20, PL0.Action.reduce 2), (22, PL0.Action.reduce 2)],
 [(29, PL0.Action.shift 29)],
 [(23, PL0.Action.shift 30)],
 [(20, PL0.Action.reduce 15),
  (22, PL0.Action.reduce 15),
  (32, PL0.Action.reduce 15),
  (23, PL0.Action.shift 17),
  (30, PL0.Action.shift 18),
  (31, PL0.Action.shift 19),
  (33, PL0.Action.shift 20),
  (35, PL0.Action.shift 21),
  (37, PL0.Action.shift 22),
  (40, PL0.Action.shift 23)],
 [(23, PL0.Action.shift 36), (25, PL0.Action.shift 37), (38, PL0.Action.shift 38), (45, PL0.Action.shift 39)],
 [(23, PL0.Action.shift 36), (25, PL0.Action.shift 37), (38, PL0.Action.shift 38), (45, PL0.Action.shift 39)],
 [(38, PL0.Action.shift 42)],
 [(38, PL0.Action.shift 43)],
 [(22, PL0.Action.shift 44)],
 [(20, PL0.Action.reduce 9),
  (22, PL0.Action.reduce 9),
  (23, PL0.Action.reduce 9),
  (28, PL0.Action.reduce 9),
  (30, PL0.Action.reduce 9),
  (31, PL0.Action.reduce 9),
  (33, PL0.Action.reduce 9),
  (35, PL0.Action.reduce 9),
  (37, PL0.Action.reduce 9),
  (40, PL0.Action.reduce 9)],
 [(22, PL0.Action.reduce 10)],
 [(23, PL0.Action.shift 45)],
 [(22, PL0.Action.reduce 6), (26, PL0.Action.shift 47)],
 [(23, PL0.Action.shift 36), (25, PL0.Action.shift 37), (38, PL0.Action.shift 38)],
 [(20, PL0.Action.reduce 17), (22, PL0.Action.reduce 17), (32, PL0.Action.reduce 17)],
 [(32, PL0.Action.shift 49)],
 [(32, PL0.Action.reduce 24), (22, PL0.Action.shift 51)],
 [(34, PL0.Action.shift 52)],
 [(20, PL0.Action.reduce 27),
  (22, PL0.Action.reduce 27),
  (24, PL0.Action.reduce 27),
  (32, PL0.Action.reduce 27),
  (34, PL0.Action.reduce 27),
  (36, PL0.Action.reduce 27),
  (39, PL0.Action.reduce 27),
  (46, PL0.Action.reduce 27),
  (47, PL0.Action.reduce 27),
  (48, PL0.Action.reduce 27),
  (49, PL0.Action.reduce 27),
  (50, PL0.Action.reduce 27),
  (41, PL0.Action.shift 54),
  (42, PL0.Action.shift 55)],
 [(20, PL0.Action.reduce 31),
  (22, PL0.Action.reduce 31),
  (24, PL0.Action.reduce 31),
  (32, PL0.Action.reduce 31),
  (34, PL0.Action.reduce 31),
  (36, PL0.Action.reduce 31),
  (39, PL0.Action.reduce 31),
  (41, PL0.Action.reduce 31),
  (42, PL0.Action.reduce 31),
  (46, PL0.Action.reduce 31),
  (47, PL0.Action.reduce 31),
  (48, PL0.Action.reduce 31),
  (49, PL0.Action.reduce 31),
  (50, PL0.Action.reduce 31),
  (43, PL0.Action.shift 57),
  (44, PL0.Action.shift 58)],
 [(20, PL0.Action.reduce 34),
  (22, PL0.Action.reduce 34),
  (24, PL0.Action.reduce 34),
  (32, PL0.Action.reduce 34),
  (34, PL0.Action.reduce 34),
  (36, PL0.Action.reduce 34),
  (39, PL0.Action.reduce 34),
  (41, PL0.Action.reduce 34),
  (42, PL0.Action.reduce 34),
  (43, PL0.Action.reduce 34),
  (44, PL0.Action.reduce 34),
  (46, PL0.Action.reduce 34),
  (47, PL0.Action.reduce 34),
  (48, PL0.Action.reduce 34),
  (49, PL0.Action.reduce 34),
  (50, PL0.Action.reduce 34)],
 [(20, PL0.Action.reduce 35),
  (22, PL0.Action.reduce 35),
  (24, PL0.Action.reduce 35),
  (32, PL0.Action.reduce 35),
  (34, PL0.Action.reduce 35),
  (36, PL0.Action.reduce 35),
  (39, PL0.Action.reduce 35),
  (41, PL0.Action.reduce 35),
  (42, PL0.Action.reduce 35),
  (43, PL0.Action.reduce 35),
  (44, PL0.Action.reduce 35),
  (46, PL0.Action.reduce 35),
  (47, PL0.Action.reduce 35),
  (48, PL0.Action.reduce 35),
  (49, PL0.Action.reduce 35),
  (50, PL0.Action.reduce 35)],
 [(23, PL0.Action.shift 36), (25, PL0.Action.shift 37), (38, PL0.Action.shift 38)],
 [(23, PL0.Action.shift 36), (25, PL0.Action.shift 37), (38, PL0.Action.shift 38)],
 [(24, PL0.Action.shift 62),
  (46, PL0.Action.shift 63),
  (47, PL0.Action.shift 64),
  (48, PL0.Action.shift 65),
  (49, PL0.Action.shift 66),
  (50, PL0.Action.shift 67)],
 [(36, PL0.Action.shift 68)],
 [(23, PL0.Action.shift 69)],
 [(23, PL0.Action.shift 36), (25, PL0.Action.shift 37), (38, PL0.Action.shift 38)],
 [(20, PL0.Action.reduce 3),
  (22, PL0.Action.reduce 3),
  (23, PL0.Action.reduce 3),
  (27, PL0.Action.reduce 3),
  (28, PL0.Action.reduce 3),
  (30, PL0.Action.reduce 3),
  (31, PL0.Action.reduce 3),
  (33, PL0.Action.reduce 3),
  (35, PL0.Action.reduce 3),
  (37, PL0.Action.reduce 3),
  (40, PL0.Action.reduce 3),
  (21, PL0.Action.shift 4)],
 [(22, PL0.Action.reduce 11), (26, PL0.Action.shift 27)],
 [(22, PL0.Action.reduce 5)],
 [(23, PL0.Action.shift 73)],
 [(20, PL0.Action.reduce 16), (22, PL0.Action.reduce 16), (32, PL0.Action.reduce 16)],
 [(20, PL0.Action.reduce 18), (22, PL0.Action.reduce 18), (32, PL0.Action.reduce 18)],
 [(32, PL0.Action.reduce 23)],
 [(20, PL0.Action.reduce 15),
  (22, PL0.Action.reduce 15),
  (32, PL0.Action.reduce 15),
  (23, PL0.Action.shift 17),
  (30, PL0.Action.shift 18),
  (31, PL0.Action.shift 19),
  (33, PL0.Action.shift 20),
  (35, PL0.Action.shift 21),
  (37, PL0.Action.shift 22),
  (40, PL0.Action.shift 23)],
 [(20, PL0.Action.reduce 15),
  (22, PL0.Action.reduce 15),
  (32, PL0.Action.reduce 15),
  (23, PL0.Action.shift 17),
  (30, PL0.Action.shift 18),
  (31, PL0.Action.shift 19),
  (33, PL0.Action.shift 20),
  (35, PL0.Action.shift 21),
  (37, PL0.Action.shift 22),
  (40, PL0.Action.shift 23)],
 [(20, PL0.Action.reduce 26),
  (22, PL0.Action.reduce 26),
  (24, PL0.Action.reduce 26),
  (32, PL0.Action.reduce 26),
  (34, PL0.Action.reduce 26),
  (36, PL0.Action.reduce 26),
  (39, PL0.Action.reduce 26),
  (46, PL0.Action.reduce 26),
  (47, PL0.Action.reduce 26),
  (48, PL0.Action.reduce 26),
  (49, PL0.Action.reduce 26),
  (50, PL0.Action.reduce 26)],
 [(23, PL0.Action.shift 36), (25, PL0.Action.shift 37), (38, PL0.Action.shift 38)],
 [(23, PL0.Action.shift 36), (25, PL0.Action.shift 37), (38, PL0.Action.shift 38)],
 [(20, PL0.Action.reduce 30),
  (22, PL0.Action.reduce 30),
  (24, PL0.Action.reduce 30),
  (32, PL0.Action.reduce 30),
  (34, PL0.Action.reduce 30),
  (36, PL0.Action.reduce 30),
  (39, PL0.Action.reduce 30),
  (41, PL0.Action.reduce 30),
  (42, PL0.Action.reduce 30),
  (46, PL0.Action.reduce 30),
  (47, PL0.Action.reduce 30),
  (48, PL0.Action.reduce 30),
  (49, PL0.Action.reduce 30),
  (50, PL0.Action.reduce 30)],
 [(23, PL0.Action.shift 36), (25, PL0.Action.shift 37), (38, PL0.Action.shift 38)],
 [(23, PL0.Action.shift 36), (25, PL0.Action.shift 37), (38, PL0.Action.shift 38)],
 [(39, PL0.Action.shift 80)],
 [(34, PL0.Action.reduce 37), (36, PL0.Action.reduce 37)],
 [(23, PL0.Action.shift 36), (25, PL0.Action.shift 37), (38, PL0.Action.shift 38)],
 [(23, PL0.Action.reduce 39), (25, PL0.Action.reduce 39), (38, PL0.Action.reduce 39)],
 [(23, PL0.Action.reduce 40), (25, PL0.Action.reduce 40), (38, PL0.Action.reduce 40)],
 [(23, PL0.Action.reduce 41), (25, PL0.Action.reduce 41), (38, PL0.Action.reduce 41)],
 [(23, PL0.Action.reduce 42), (25, PL0.Action.reduce 42), (38, PL0.Action.reduce 42)],
 [(23, PL0.Action.reduce 43), (25, PL0.Action.reduce 43), (38, PL0.Action.reduce 43)],
 [(23, PL0.Action.reduce 44), (25, PL0.Action.reduce 44), (38, PL0.Action.reduce 44)],
 [(20, PL0.Action.reduce 15),
  (22, PL0.Action.reduce 15),
  (32, PL0.Action.reduce 15),
  (23, PL0.Action.shift 17),
  (30, PL0.Action.shift 18),
  (31, PL0.Action.shift 19),
  (33, PL0.Action.shift 20),
  (35, PL0.Action.shift 21),
  (37, PL0.Action.shift 22),
  (40, PL0.Action.shift 23)],
 [(39, PL0.Action.shift 83)],
 [(39, PL0.Action.shift 84)],
 [(22, PL0.Action.shift 85)],
 [(22, PL0.Action.reduce 12)],
 [(24, PL0.Action.shift 86)],
 [(32, PL0.Action.reduce 24), (22, PL0.Action.shift 51)],
 [(20, PL0.Action.reduce 19), (22, PL0.Action.reduce 19), (32, PL0.Action.reduce 19)],
 [(20, PL0.Action.reduce 27),
  (22, PL0.Action.reduce 27),
  (24, PL0.Action.reduce 27),
  (32, PL0.Action.reduce 27),
  (34, PL0.Action.reduce 27),
  (36, PL0.Action.reduce 27),
  (39, PL0.Action.reduce 27),
  (46, PL0.Action.reduce 27),
  (47, PL0.Action.reduce 27),
  (48, PL0.Action.reduce 27),
  (49, PL0.Action.reduce 27),
  (50, PL0.Action.reduce 27),
  (41, PL0.Action.shift 54),
  (42, PL0.Action.shift 55)],
 [(20, PL0.Action.reduce 27),
  (22, PL0.Action.reduce 27),
  (24, PL0.Action.reduce 27),
  (32, PL0.Action.reduce 27),
  (34, PL0.Action.reduce 27),
  (36, PL0.Action.reduce 27),
  (39, PL0.Action.reduce 27),
  (46, PL0.Action.reduce 27),
  (47, PL0.Action.reduce 27),
  (48, PL0.Action.reduce 27),
  (49, PL0.Action.reduce 27),
  (50, PL0.Action.reduce 27),
  (41, PL0.Action.shift 54),
  (42, PL0.Action.shift 55)],
 [(20, PL0.Action.reduce 31),
  (22, PL0.Action.reduce 31),
  (24, PL0.Action.reduce 31),
  (32, PL0.Action.reduce 31),
  (34, PL0.Action.reduce 31),
  (36, PL0.Action.reduce 31),
  (39, PL0.Action.reduce 31),
  (41, PL0.Action.reduce 31),
  (42, PL0.Action.reduce 31),
  (46, PL0.Action.reduce 31),
  (47, PL0.Action.reduce 31),
  (48, PL0.Action.reduce 31),
  (49, PL0.Action.reduce 31),
  (50, PL0.Action.reduce 31),
  (43, PL0.Action.shift 57),
  (44, PL0.Action.shift 58)],
 [(20, PL0.Action.reduce 31),
  (22, PL0.Action.reduce 31),
  (24, PL0.Action.reduce 31),
  (32, PL0.Action.reduce 31),
  (34, PL0.Action.reduce 31),
  (36, PL0.Action.reduce 31),
  (39, PL0.Action.reduce 31),
  (41, PL0.Action.reduce 31),
  (42, PL0.Action.reduce 31),
  (46, PL0.Action.reduce 31),
  (47, PL0.Action.reduce 31),
  (48, PL0.Action.reduce 31),
  (49, PL0.Action.reduce 31),
  (50, PL0.Action.reduce 31),
  (43, PL0.Action.shift 57),
  (44, PL0.Action.shift 58)],
 [(20, PL0.Action.reduce 36),
  (22, PL0.Action.reduce 36),
  (24, PL0.Action.reduce 36),
  (32, PL0.Action.reduce 36),
  (34, PL0.Action.reduce 36),
  (36, PL0.Action.reduce 36),
  (39, PL0.Action.reduce 36),
  (41, PL0.Action.reduce 36),
  (42, PL0.Action.reduce 36),
  (43, PL0.Action.reduce 36),
  (44, PL0.Action.reduce 36),
  (46, PL0.Action.reduce 36),
  (47, PL0.Action.reduce 36),
  (48, PL0.Action.reduce 36),
  (49, PL0.Action.reduce 36),
  (50, PL0.Action.reduce 36)],
 [(34, PL0.Action.reduce 38), (36, PL0.Action.reduce 38)],
 [(20, PL0.Action.reduce 20), (22, PL0.Action.reduce 20), (32, PL0.Action.reduce 20)],
 [(20, PL0.Action.reduce 21), (22, PL0.Action.reduce 21), (32, PL0.Action.reduce 21)],
 [(20, PL0.Action.reduce 22), (22, PL0.Action.reduce 22), (32, PL0.Action.reduce 22)],
 [(20, PL0.Action.reduce 13),
  (22, PL0.Action.reduce 13),
  (23, PL0.Action.reduce 13),
  (30, PL0.Action.reduce 13),
  (31, PL0.Action.reduce 13),
  (33, PL0.Action.reduce 13),
  (35, PL0.Action.reduce 13),
  (37, PL0.Action.reduce 13),
  (40, PL0.Action.reduce 13),
  (28, PL0.Action.shift 11)],
 [(25, PL0.Action.shift 93)],
 [(32, PL0.Action.reduce 25)],
 [(20, PL0.Action.reduce 28),
  (22, PL0.Action.reduce 28),
  (24, PL0.Action.reduce 28),
  (32, PL0.Action.reduce 28),
  (34, PL0.Action.reduce 28),
  (36, PL0.Action.reduce 28),
  (39, PL0.Action.reduce 28),
  (46, PL0.Action.reduce 28),
  (47, PL0.Action.reduce 28),
  (48, PL0.Action.reduce 28),
  (49, PL0.Action.reduce 28),
  (50, PL0.Action.reduce 28)],
 [(20, PL0.Action.reduce 29),
  (22, PL0.Action.reduce 29),
  (24, PL0.Action.reduce 29),
  (32, PL0.Action.reduce 29),
  (34, PL0.Action.reduce 29),
  (36, PL0.Action.reduce 29),
  (39, PL0.Action.reduce 29),
  (46, PL0.Action.reduce 29),
  (47, PL0.Action.reduce 29),
  (48, PL0.Action.reduce 29),
  (49, PL0.Action.reduce 29),
  (50, PL0.Action.reduce 29)],
 [(20, PL0.Action.reduce 32),
  (22, PL0.Action.reduce 32),
  (24, PL0.Action.reduce 32),
  (32, PL0.Action.reduce 32),
  (34, PL0.Action.reduce 32),
  (36, PL0.Action.reduce 32),
  (39, PL0.Action.reduce 32),
  (41, PL0.Action.reduce 32),
  (42, PL0.Action.reduce 32),
  (46, PL0.Action.reduce 32),
  (47, PL0.Action.reduce 32),
  (48, PL0.Action.reduce 32),
  (49, PL0.Action.reduce 32),
  (50, PL0.Action.reduce 32)],
 [(20, PL0.Action.reduce 33),
  (22, PL0.Action.reduce 33),
  (24, PL0.Action.reduce 33),
  (32, PL0.Action.reduce 33),
  (34, PL0.Action.reduce 33),
  (36, PL0.Action.reduce 33),
  (39, PL0.Action.reduce 33),
  (41, PL0.Action.reduce 33),
  (42, PL0.Action.reduce 33),
  (46, PL0.Action.reduce 33),
  (47, PL0.Action.reduce 33),
  (48, PL0.Action.reduce 33),
  (49, PL0.Action.reduce 33),
  (50, PL0.Action.reduce 33)],
 [(20, PL0.Action.reduce 14),
  (22, PL0.Action.reduce 14),
  (23, PL0.Action.reduce 14),
  (30, PL0.Action.reduce 14),
  (31, PL0.Action.reduce 14),
  (33, PL0.Action.reduce 14),
  (35, PL0.Action.reduce 14),
  (37, PL0.Action.reduce 14),
  (40, PL0.Action.reduce 14)],
 [(22, PL0.Action.reduce 6), (26, PL0.Action.shift 47)],
 [(22, PL0.Action.reduce 7)]]
def gotoLit : List (List (Sym × Nat)) := [[(1, 1), (2, 2), (3, 3)],
 [],
 [],
 [(6, 6)],
 [(4, 8)],
 [],
 [(9, 10)],
 [(7, 12)],
 [],
 [],
 [(10, 16)],
 [],
 [],
 [(8, 26)],
 [],
 [],
 [],
 [],
 [],
 [(10, 32), (11, 31)],
 [(13, 40), (15, 34), (17, 35), (18, 33)],
 [(13, 40), (15, 34), (17, 35), (18, 41)],
 [],
 [],
 [],
 [],
 [],
 [],
 [(5, 46)],
 [(13, 48), (15, 34), (17, 35)],
 [],
 [],
 [(12, 50)],
 [],
 [(14, 53)],
 [(16, 56)],
 [],
 [],
 [(13, 59), (15, 34), (17, 35)],
 [(13, 60), (15, 34), (17, 35)],
 [(19, 61)],
 [],
 [],
 [(13, 70), (15, 34), (17, 35)],
 [(2, 71), (3, 3)],
 [(8, 72)],
 [],
 [],
 [],
 [],
 [],
 [(10, 74)],
 [(10, 75)],
 [],
 [(15, 76), (17, 35)],
 [(15, 77), (17, 35)],
 [],
 [(17, 78)],
 [(17, 79)],
 [],
 [],
 [(13, 81), (15, 34), (17, 35)],
 [],
 [],
 [],
 [],
 [],
 [],
 [(10, 82)],
 [],
 [],
 [],
 [],
 [],
 [(12, 87)],
 [],
 [(14, 88)],
 [(14, 89)],
 [(16, 90)],
 [(16, 91)],
 [],
 [],
 [],
 [],
 [],
 [(9, 92)],
 [],
 [],
 [],
 [],
 [],
 [],
 [],
 [(5, 94)],
 []]
def eventsLit : List ((Nat × Sym) × Action) := [((0, 20), PL0.Action.reduce 3),
 ((0, 22), PL0.Action.reduce 3),
 ((0, 23), PL0.Action.reduce 3),
 ((0, 27), PL0.Action.reduce 3),
 ((0, 28), PL0.Action.reduce 3),
 ((0, 30), PL0.Action.reduce 3),
 ((0, 31), PL0.Action.reduce 3),
 ((0, 33), PL0.Action.reduce 3),
 ((0, 35), PL0.Action.reduce 3),
 ((0, 37), PL0.Action.reduce 3),
 ((0, 40), PL0.Action.reduce 3),
 ((0, 21), PL0.Action.shift 4),
 ((1, 51), PL0.Action.accept),
 ((2, 20), PL0.Action.shift 5),
 ((3, 20), PL0.Action.reduce 8),
 ((3, 22), PL0.Action.reduce 8),
 ((3, 23), PL0.Action.reduce 8),
 ((3, 28), PL0.Action.reduce 8),
 ((3, 30), PL0.Action.reduce 8),
 ((3, 31), PL0.Action.reduce 8),
 ((3, 33), PL0.Action.reduce 8),
 ((3, 35), PL0.Action.reduce 8),
 ((3, 37), PL0.Action.reduce 8),
 ((3, 40), PL0.Action.reduce 8),
 ((3, 27), PL0.Action.shift 7),
 ((4, 23), PL0.Action.shift 9),
 ((5, 51), PL0.Action.reduce 1),
 ((6, 20), PL0.Action.reduce 13),
 ((6, 22), PL0.Action.reduce 13),
 ((6, 23), PL0.Action.reduce 13),
 ((6, 30), PL0.Action.reduce 13),
 ((6, 31), PL0.Action.reduce 13),
 ((6, 33), PL0.Action.reduce 13),
 ((6, 35), PL0.Action.reduce 13),
 ((6, 37), PL0.Action.reduce 13),
 ((6, 40), PL0.Action.reduce 13),
 ((6, 28), PL0.Action.shift 11),
 ((7, 23), PL0.Action.shift 13),
 ((8, 22), PL0.Action.shift 14),
 ((9, 24), PL0.Action.shift 15),
 ((10, 20), PL0.Action.reduce 15),
 ((10, 22), PL0.Action.reduce 15),
 ((10, 32), PL0.Action.reduce 15),
 ((10, 23), PL0.Action.shift 17),
 ((10, 30), PL0.Action.shift 18),
 ((10, 31), PL0.Action.shift 19),
 ((10, 33), PL0.Action.shift 20),
 ((10, 35), PL0.Action.shift 21),
 ((10, 37), PL0.Action.shift 22),
 ((10, 40), PL0.Action.shift 23),
 ((11, 23), PL0.Action.shift 24),
 ((12, 22), PL0.Action.shift 25),
 ((13, 22), PL0.Action.reduce 11),
 ((13, 26), PL0.Action.shift 27),
 ((14, 20), PL0.Action.reduce 4),
 ((14, 22), PL0.Action.reduce 4),
 ((14, 23), PL0.Action.reduce 4),
 ((14, 27), PL0.Action.reduce 4),
 ((14, 28), PL0.Action.reduce 4),
 ((14, 30), PL0.Action.reduce 4),
 ((14, 31), PL0.Action.reduce 4),
 ((14, 33), PL0.Action.reduce 4),
 ((14, 35), PL0.Action.reduce 4),
 ((14, 37), PL0.Action.reduce 4),
 ((14, 40), PL0.Action.reduce 4),
 ((15, 25), PL0.Action.shift 28),
 ((16, 20), PL0.Action.reduce 2),
 ((16, 22), PL0.Action.reduce 2),
 ((17, 29), PL0.Action.shift 29),
 ((18, 23), PL0.Action.shift 30),
 ((19, 20), PL0.Action.reduce 15),
 ((19, 22), PL0.Action.reduce 15),
 ((19, 32), PL0.Action.reduce 15),
 ((19, 23), PL0.Action.shift 17),
 ((19, 30), PL0.Action.shift 18),
 ((19, 31), PL0.Action.shift 19),
 ((19, 33), PL0.Action.shift 20),
 ((19, 35), PL0.Action.shift 21),
 ((19, 37), PL0.Action.shift 22),
 ((19, 40), PL0.Action.shift 23),
 ((20, 23), PL0.Action.shift 36),
 ((20, 25), PL0.Action.shift 37),
 ((20, 38), PL0.Action.shift 38),
 ((20, 45), PL0.Action.shift 39),
 ((21, 23), PL0.Action.shift 36),
 ((21, 25), PL0.Action.shift 37),
 ((21, 38), PL0.Action.shift 38),
 ((21, 45), PL0.Action.shift 39),
 ((22, 38), PL0.Action.shift 42),
 ((23, 38), PL0.Action.shift 43),
 ((24, 22), PL0.Action.shift 44),
 ((25, 20), PL0.Action.reduce 9),
 ((25, 22), PL0.Action.reduce 9),
 ((25, 23), PL0.Action.reduce 9),
 ((25, 28), PL0.Action.reduce 9),
 ((25, 30), PL0.Action.reduce 9),
 ((25, 31), PL0.Action.reduce 9),
 ((25, 33), PL0.Action.reduce 9),
 ((25, 35), PL0.Action.reduce 9),
 ((25, 37), PL0.Action.reduce 9),
 ((25, 40), PL0.Action.reduce 9),
 ((26, 22), PL0.Action.reduce 10),
 ((27, 23), PL0.Action.shift 45),
 ((28, 22), PL0.Action.reduce 6),
 ((28, 26), PL0.Action.shift 47),
 ((29, 23), PL0.Action.shift 36),
 ((29, 25), PL0.Action.shift 37),
 ((29, 38), PL0.Action.shift 38),
 ((30, 20), PL0.Action.reduce 17),
 ((30, 22), PL0.Action.reduce 17),
 ((30, 32), PL0.Action.reduce 17),
 ((31, 32), PL0.Action.shift 49),
 ((32, 32), PL0.Action.reduce 24),
 ((32, 22), PL0.Action.shift 51),
 ((33, 34), PL0.Action.shift 52),
 ((34, 20), PL0.Action.reduce 27),
 ((34, 22), PL0.Action.reduce 27),
 ((34, 24), PL0.Action.reduce 27),
 ((34, 32), PL0.Action.reduce 27),
 ((34, 34), PL0.Action.reduce 27),
 ((34, 36), PL0.Action.reduce 27),
 ((34, 39), PL0.Action.reduce 27),
 ((34, 46), PL0.Action.reduce 27),
 ((34, 47), PL0.Action.reduce 27),
 ((34, 48), PL0.Action.reduce 27),
 ((34, 49), PL0.Action.reduce 27),
 ((34, 50), PL0.Action.reduce 27),
 ((34, 41), PL0.Action.shift 54),
 ((34, 42), PL0.Action.shift 55),
 ((35, 20), PL0.Action.reduce 31),
 ((35, 22), PL0.Action.reduce 31),
 ((35, 24), PL0.Action.reduce 31),
 ((35, 32), PL0.Action.reduce 31),
 ((35, 34), PL0.Action.reduce 31),
 ((35, 36), PL0.Action.reduce 31),
 ((35, 39), PL0.Action.reduce 31),
 ((35, 41), PL0.Action.reduce 31),
 ((35, 42), PL0.Action.reduce 31),
 ((35, 46), PL0.Action.reduce 31),
 ((35, 47), PL0.Action.reduce 31),
 ((35, 48), PL0.Action.reduce 31),
 ((35, 49), PL0.Action.reduce 31),
 ((35, 50), PL0.Action.reduce 31),
 ((35, 43), PL0.Action.shift 57),
 ((35, 44), PL0.Action.shift 58),
 ((36, 20), PL0.Action.reduce 34),
 ((36, 22), PL0.Action.reduce 34),
 ((36, 24), PL0.Action.reduce 34),
 ((36, 32), PL0.Action.reduce 34),
 ((36, 34), PL0.Action.reduce 34),
 ((36, 36), PL0.Action.reduce 34),
 ((36, 39), PL0.Action.reduce 34),
 ((36, 41), PL0.Action.reduce 34),
 ((36, 42), PL0.Action.reduce 34),
 ((36, 43), PL0.Action.reduce 34),
 ((36, 44), PL0.Action.reduce 34),
 ((36, 46), PL0.Action.reduce 34),
 ((36, 47), PL0.Action.reduce 34),
 ((36, 48), PL0.Action.reduce 34),
 ((36, 49), PL0.Action.reduce 34),
 ((36, 50), PL0.Action.reduce 34),
 ((37, 20), PL0.Action.reduce 35),
 ((37, 22), PL0.Action.reduce 35),
 ((37, 24), PL0.Action.reduce 35),
 ((37, 32), PL0.Action.reduce 35),
 ((37, 34), PL0.Action.reduce 35),
 ((37, 36), PL0.Action.reduce 35),
 ((37, 39), PL0.Action.reduce 35),
 ((37, 41), PL0.Action.reduce 35),
 ((37, 42), PL0.Action.reduce 35),
 ((37, 43), PL0.Action.reduce 35),
 ((37, 44), PL0.Action.reduce 35),
 ((37, 46), PL0.Action.reduce 35),
 ((37, 47), PL0.Action.reduce 35),
 ((37, 48), PL0.Action.reduce 35),
 ((37, 49), PL0.Action.reduce 35),
 ((37, 50), PL0.Action.reduce 35),
 ((38, 23), PL0.Action.shift 36),
 ((38, 25), PL0.Action.shift 37),
 ((38, 38), PL0.Action.shift 38),
 ((39, 23), PL0.Action.shift 36),
 ((39, 25), PL0.Action.shift 37),
 ((39, 38), PL0.Action.shift 38),
 ((40, 24), PL0.Action.shift 62),
 ((40, 46), PL0.Action.shift 63),
 ((40, 47), PL0.Action.shift 64),
 ((40, 48), PL0.Action.shift 65),
 ((40, 49), PL0.Action.shift 66),
 ((40, 50), PL0.Action.shift 67),
 ((41, 36), PL0.Action.shift 68),
 ((42, 23), PL0.Action.shift 69),
 ((43, 23), PL0.Action.shift 36),
 ((43, 25), PL0.Action.shift 37),
 ((43, 38), PL0.Action.shift 38),
 ((44, 20), PL0.Action.reduce 3),
 ((44, 22), PL0.Action.reduce 3),
 ((44, 23), PL0.Action.reduce 3),
 ((44, 27), PL0.Action.reduce 3),
 ((44, 28), PL0.Action.reduce 3),
 ((44, 30), PL0.Action.reduce 3),
 ((44, 31), PL0.Action.reduce 3),
 ((44, 33), PL0.Action.reduce 3),
 ((44, 35), PL0.Action.reduce 3),
 ((44, 37), PL0.Action.reduce 3),
 ((44, 40), PL0.Action.reduce 3),
 ((44, 21), PL0.Action.shift 4),
 ((45, 22), PL0.Action.reduce 11),
 ((45, 26), PL0.Action.shift 27),
 ((46, 22), PL0.Action.reduce 5),
 ((47, 23), PL0.Action.shift 73),
 ((48, 20), PL0.Action.reduce 16),
 ((48, 22), PL0.Action.reduce 16),
 ((48, 32), PL0.Action.reduce 16),
 ((49, 20), PL0.Action.reduce 18),
 ((49, 22), PL0.Action.reduce 18),
 ((49, 32), PL0.Action.reduce 18),
 ((50, 32), PL0.Action.reduce 23),
 ((51, 20), PL0.Action.reduce 15),
 ((51, 22), PL0.Action.reduce 15),
 ((51, 32), PL0.Action.reduce 15),
 ((51, 23), PL0.Action.shift 17),
 ((51, 30), PL0.Action.shift 18),
 ((51, 31), PL0.Action.shift 19),
 ((51, 33), PL0.Action.shift 20),
 ((51, 35), PL0.Action.shift 21),
 ((51, 37), PL0.Action.shift 22),
 ((51, 40), PL0.Action.shift 23),
 ((52, 20), PL0.Action.reduce 15),
 ((52, 22), PL0.Action.reduce 15),
 ((52, 32), PL0.Action.reduce 15),
 ((52, 23), PL0.Action.shift 17),
 ((52, 30), PL0.Action.shift 18),
 ((52, 31), PL0.Action.shift 19),
 ((52, 33), PL0.Action.shift 20),
 ((52, 35), PL0.Action.shift 21),
 ((52, 37), PL0.Action.shift 22),
 ((52, 40), PL0.Action.shift 23),
 ((53, 20), PL0.Action.reduce 26),
 ((53, 22), PL0.Action.reduce 26),
 ((53, 24), PL0.Action.reduce 26),
 ((53, 32), PL0.Action.reduce 26),
 ((53, 34), PL0.Action.reduce 26),
 ((53, 36), PL0.Action.reduce 26),
 ((53, 39), PL0.Action.reduce 26),
 ((53, 46), PL0.Action.reduce 26),
 ((53, 47), PL0.Action.reduce 26),
 ((53, 48), PL0.Action.reduce 26),
 ((53, 49), PL0.Action.reduce 26),
 ((53, 50), PL0.Action.reduce 26),
 ((54, 23), PL0.Action.shift 36),
 ((54, 25), PL0.Action.shift 37),
 ((54, 38), PL0.Action.shift 38),
 ((55, 23), PL0.Action.shift 36),
 ((55, 25), PL0.Action.shift 37),
 ((55, 38), PL0.Action.shift 38),
 ((56, 20), PL0.Action.reduce 30),
 ((56, 22), PL0.Action.reduce 30),
 ((56, 24), PL0.Action.reduce 30),
 ((56, 32), PL0.Action.reduce 30),
 ((56, 34), PL0.Action.reduce 30),
 ((56, 36), PL0.Action.reduce 30),
 ((56, 39), PL0.Action.reduce 30),
 ((56, 41), PL0.Action.reduce 30),
 ((56, 42), PL0.Action.reduce 30),
 ((56, 46), PL0.Action.reduce 30),
 ((56, 47), PL0.Action.reduce 30),
 ((56, 48), PL0.Action.reduce 30),
 ((56, 49), PL0.Action.reduce 30),
 ((56, 50), PL0.Action.reduce 30),
 ((57, 23), PL0.Action.shift 36),
 ((57, 25), PL0.Action.shift 37),
 ((57, 38), PL0.Action.shift 38),
 ((58, 23), PL0.Action.shift 36),
 ((58, 25), PL0.Action.shift 37),
 ((58, 38), PL0.Action.shift 38),
 ((59, 39), PL0.Action.shift 80),
 ((60, 34), PL0.Action.reduce 37),
 ((60, 36), PL0.Action.reduce 37),
 ((61, 23), PL0.Action.shift 36),
 ((61, 25), PL0.Action.shift 37),
 ((61, 38), PL0.Action.shift 38),
 ((62, 23), PL0.Action.reduce 39),
 ((62, 25), PL0.Action.reduce 39),
 ((62, 38), PL0.Action.reduce 39),
 ((63, 23), PL0.Action.reduce 40),
 ((63, 25), PL0.Action.reduce 40),
 ((63, 38), PL0.Action.reduce 40),
 ((64, 23), PL0.Action.reduce 41),
 ((64, 25), PL0.Action.reduce 41),
 ((64, 38), PL0.Action.reduce 41),
 ((65, 23), PL0.Action.reduce 42),
 ((65, 25), PL0.Action.reduce 42),
 ((65, 38), PL0.Action.reduce 42),
 ((66, 23), PL0.Action.reduce 43),
 ((66, 25), PL0.Action.reduce 43),
 ((66, 38), PL0.Action.reduce 43),
 ((67, 23), PL0.Action.reduce 44),
 ((67, 25), PL0.Action.reduce 44),
 ((67, 38), PL0.Action.reduce 44),
 ((68, 20), PL0.Action.reduce 15),
 ((68, 22), PL0.Action.reduce 15),
 ((68, 32), PL0.Action.reduce 15),
 ((68, 23), PL0.Action.shift 17),
 ((68, 30), PL0.Action.shift 18),
 ((68, 31), PL0.Action.shift 19),
 ((68, 33), PL0.Action.shift 20),
 ((68, 35), PL0.Action.shift 21),
 ((68, 37), PL0.Action.shift 22),
 ((68, 40), PL0.Action.shift 23),
 ((69, 39), PL0.Action.shift 83),
 ((70, 39), PL0.Action.shift 84),
 ((71, 22), PL0.Action.shift 85),
 ((72, 22), PL0.Action.reduce 12),
 ((73, 24), PL0.Action.shift 86),
 ((74, 32), PL0.Action.reduce 24),
 ((74, 22), PL0.Action.shift 51),
 ((75, 20), PL0.Action.reduce 19),
 ((75, 22), PL0.Action.reduce 19),
 ((75, 32), PL0.Action.reduce 19),
 ((76, 20), PL0.Action.reduce 27),
 ((76, 22), PL0.Action.reduce 27),
 ((76, 24), PL0.Action.reduce 27),
 ((76, 32), PL0.Action.reduce 27),
 ((76, 34), PL0.Action.reduce 27),
 ((76, 36), PL0.Action.reduce 27),
 ((76, 39), PL0.Action.reduce 27),
 ((76, 46), PL0.Action.reduce 27),
 ((76, 47), PL0.Action.reduce 27),
 ((76, 48), PL0.Action.reduce 27),
 ((76, 49), PL0.Action.reduce 27),
 ((76, 50), PL0.Action.reduce 27),
 ((76, 41), PL0.Action.shift 54),
 ((76, 42), PL0.Action.shift 55),
 ((77, 20), PL0.Action.reduce 27),
 ((77, 22), PL0.Action.reduce 27),
 ((77, 24), PL0.Action.reduce 27),
 ((77, 32), PL0.Action.reduce 27),
 ((77, 34), PL0.Action.reduce 27),
 ((77, 36), PL0.Action.reduce 27),
 ((77, 39), PL0.Action.reduce 27),
 ((77, 46), PL0.Action.reduce 27),
 ((77, 47), PL0.Action.reduce 27),
 ((77, 48), PL0.Action.reduce 27),
 ((77, 49), PL0.Action.reduce 27),
 ((77, 50), PL0.Action.reduce 27),
 ((77, 41), PL0.Action.shift 54),
 ((77, 42), PL0.Action.shift 55),
 ((78, 20), PL0.Action.reduce 31),
 ((78, 22), PL0.Action.reduce 31),
 ((78, 24), PL0.Action.reduce 31),
 ((78, 32), PL0.Action.reduce 31),
 ((78, 34), PL0.Action.reduce 31),
 ((78, 36), PL0.Action.reduce 31),
 ((78, 39), PL0.Action.reduce 31),
 ((78, 41), PL0.Action.reduce 31),
 ((78, 42), PL0.Action.reduce 31),
 ((78, 46), PL0.Action.reduce 31),
 ((78, 47), PL0.Action.reduce 31),
 ((78, 48), PL0.Action.reduce 31),
 ((78, 49), PL0.Action.reduce 31),
 ((78, 50), PL0.Action.reduce 31),
 ((78, 43), PL0.Action.shift 57),
 ((78, 44), PL0.Action.shift 58),
 ((79, 20), PL0.Action.reduce 31),
 ((79, 22), PL0.Action.reduce 31),
 ((79, 24), PL0.Action.reduce 31),
 ((79, 32), PL0.Action.reduce 31),
 ((79, 34), PL0.Action.reduce 31),
 ((79, 36), PL0.Action.reduce 31),
 ((79, 39), PL0.Action.reduce 31),
 ((79, 41), PL0.Action.reduce 31),
 ((79, 42), PL0.Action.reduce 31),
 ((79, 46), PL0.Action.reduce 31),
 ((79, 47), PL0.Action.reduce 31),
 ((79, 48), PL0.Action.reduce 31),
 ((79, 49), PL0.Action.reduce 31),
 ((79, 50), PL0.Action.reduce 31),
 ((79, 43), PL0.Action.shift 57),
 ((79, 44), PL0.Action.shift 58),
 ((80, 20), PL0.Action.reduce 36),
 ((80, 22), PL0.Action.reduce 36),
 ((80, 24), PL0.Action.reduce 36),
 ((80, 32), PL0.Action.reduce 36),
 ((80, 34), PL0.Action.reduce 36),
 ((80, 36), PL0.Action.reduce 36),
 ((80, 39), PL0.Action.reduce 36),
 ((80, 41), PL0.Action.reduce 36),
 ((80, 42), PL0.Action.reduce 36),
 ((80, 43), PL0.Action.reduce 36),
 ((80, 44), PL0.Action.reduce 36),
 ((80, 46), PL0.Action.reduce 36),
 ((80, 47), PL0.Action.reduce 36),
 ((80, 48), PL0.Action.reduce 36),
 ((80, 49), PL0.Action.reduce 36),
 ((80, 50), PL0.Action.reduce 36),
 ((81, 34), PL0.Action.reduce 38),
 ((81, 36), PL0.Action.reduce 38),
 ((82, 20), PL0.Action.reduce 20),
 ((82, 22), PL0.Action.reduce 20),
 ((82, 32), PL0.Action.reduce 20),
 ((83, 20), PL0.Action.reduce 21),
 ((83, 22), PL0.Action.reduce 21),
 ((83, 32), PL0.Action.reduce 21),
 ((84, 20), PL0.Action.reduce 22),
 ((84, 22), PL0.Action.reduce 22),
 ((84, 32), PL0.Action.reduce 22),
 ((85, 20), PL0.Action.reduce 13),
 ((85, 22), PL0.Action.reduce 13),
 ((85, 23), PL0.Action.reduce 13),
 ((85, 30), PL0.Action.reduce 13),
 ((85, 31), PL0.Action.reduce 13),
 ((85, 33), PL0.Action.reduce 13),
 ((85, 35), PL0.Action.reduce 13),
 ((85, 37), PL0.Action.reduce 13),
 ((85, 40), PL0.Action.reduce 13),
 ((85, 28), PL0.Action.shift 11),
 ((86, 25), PL0.Action.shift 93),
 ((87, 32), PL0.Action.reduce 25),
 ((88, 20), PL0.Action.reduce 28),
 ((88, 22), PL0.Action.reduce 28),
 ((88, 24), PL0.Action.reduce 28),
 ((88, 32), PL0.Action.reduce 28),
 ((88, 34), PL0.Action.reduce 28),
 ((88, 36), PL0.Action.reduce 28),
 ((88, 39), PL0.Action.reduce 28),
 ((88, 46), PL0.Action.reduce 28),
 ((88, 47), PL0.Action.reduce 28),
 ((88, 48), PL0.Action.reduce 28),
 ((88, 49), PL0.Action.reduce 28),
 ((88, 50), PL0.Action.reduce 28),
 ((89, 20), PL0.Action.reduce 29),
 ((89, 22), PL0.Action.reduce 29),
 ((89, 24), PL0.Action.reduce 29),
 ((89, 32), PL0.Action.reduce 29),
 ((89, 34), PL0.Action.reduce 29),
 ((89, 36), PL0.Action.reduce 29),
 ((89, 39), PL0.Action.reduce 29),
 ((89, 46), PL0.Action.reduce 29),
 ((89, 47), PL0.Action.reduce 29),
 ((89, 48), PL0.Action.reduce 29),
 ((89, 49), PL0.Action.reduce 29),
 ((89, 50), PL0.Action.reduce 29),
 ((90, 20), PL0.Action.reduce 32),
 ((90, 22), PL0.Action.reduce 32),
 ((90, 24), PL0.Action.reduce 32),
 ((90, 32), PL0.Action.reduce 32),
 ((90, 34), PL0.Action.reduce 32),
 ((90, 36), PL0.Action.reduce 32),
 ((90, 39), PL0.Action.reduce 32),
 ((90, 41), PL0.Action.reduce 32),
 ((90, 42), PL0.Action.reduce 32),
 ((90, 46), PL0.Action.reduce 32),
 ((90, 47), PL0.Action.reduce 32),
 ((90, 48), PL0.Action.reduce 32),
 ((90, 49), PL0.Action.reduce 32),
 ((90, 50), PL0.Action.reduce 32),
 ((91, 20), PL0.Action.reduce 33),
 ((91, 22), PL0.Action.reduce 33),
 ((91, 24), PL0.Action.reduce 33),
 ((91, 32), PL0.Action.reduce 33),
 ((91, 34), PL0.Action.reduce 33),
 ((91, 36), PL0.Action.reduce 33),
 ((91, 39), PL0.Action.reduce 33),
 ((91, 41), PL0.Action.reduce 33),
 ((91, 42), PL0.Action.reduce 33),
 ((91, 46), PL0.Action.reduce 33),
 ((91, 47), PL0.Action.reduce 33),
 ((91, 48), PL0.Action.reduce 33),
 ((91, 49), PL0.Action.reduce 33),
 ((91, 50), PL0.Action.reduce 33),
 ((92, 20), PL0.Action.reduce 14),
 ((92, 22), PL0.Action.reduce 14),
 ((92, 23), PL0.Action.reduce 14),
 ((92, 30), PL0.Action.reduce 14),
 ((92, 31), PL0.Action.reduce 14),
 ((92, 33), PL0.Action.reduce 14),
 ((92, 35), PL0.Action.reduce 14),
 ((92, 37), PL0.Action.reduce 14),
 ((92, 40), PL0.Action.reduce 14),
 ((93, 22), PL0.Action.reduce 6),
 ((93, 26), PL0.Action.shift 47),
 ((94, 22), PL0.Action.reduce 7)]
def wStateLit : List Nat := [0, 1, 0, 0, 1, 1, 0, 1, 3, 1, 0, 1, 1, 1, 1, 1, 0, 1, 1, 1, 1, 1, 1, 1, 1, 1, 0, 1, 1, 1, 1, 0, 0, 2, 1, 1, 1, 1, 1, 1,
 1, 2, 1, 1, 1, 1, 0, 1, 1, 1, 0, 1, 1, 0, 1, 1, 0, 1, 1, 1, 1, 1, 1, 1, 1, 1, 1, 1, 1, 1, 1, 0, 0, 1, 0, 0, 1, 1, 1, 1,
 1, 1, 0, 1, 1, 1, 1, 0, 0, 0, 0, 0, 0, 1, 0]
def rankLit : List (Sym × List Nat) := [(20,
  [5, 0, 0, 4, 0, 0, 3, 0, 0, 0, 2, 0, 0, 0, 0, 0, 1, 0, 0, 1, 0, 0, 0, 0, 0, 0, 0, 0, 0, 0, 0, 0, 0, 0, 2, 4, 5, 5, 0,
   0, 0, 0, 0, 0, 5, 0, 0, 0, 0, 0, 0, 1, 1, 1, 0, 0, 3, 0, 0, 0, 0, 0, 0, 0, 0, 0, 0, 0, 1, 0, 0, 0, 0, 0, 0, 0, 1, 1,
   1, 1, 0, 0, 0, 0, 0, 1, 0, 0, 0, 0, 0, 0, 0, 0, 0]),
 (21,
  [0, 0, 0, 0, 0, 0, 0, 0, 0, 0, 0, 0, 0, 0, 0, 0, 0, 0, 0, 0, 0, 0, 0, 0, 0, 0, 0, 0, 0, 0, 0, 0, 0, 0, 0, 0, 0, 0, 0,
   0, 0, 0, 0, 0, 0, 0, 0, 0, 0, 0, 0, 0, 0, 0, 0, 0, 0, 0, 0, 0, 0, 0, 0, 0, 0, 0, 0, 0, 0, 0, 0, 0, 0, 0, 0, 0, 0, 0,
   0, 0, 0, 0, 0, 0, 0, 0, 0, 0, 0, 0, 0, 0, 0, 0, 0]),
 (22,
  [5, 0, 0, 4, 0, 0, 3, 0, 0, 0, 2, 0, 0, 2, 0, 0, 1, 0, 0, 1, 0, 0, 0, 0, 0, 0, 1, 0, 2, 0, 0, 0, 0, 0, 2, 4, 5, 5, 0,
   0, 0, 0, 0, 0, 5, 1, 1, 0, 0, 0, 0, 1, 1, 1, 0, 0, 3, 0, 0, 0, 0, 0, 0, 0, 0, 0, 0, 0, 1, 0, 0, 0, 0, 0, 0, 0, 1, 1,
   1, 1, 0, 0, 0, 0, 0, 1, 0, 0, 0, 0, 0, 0, 0, 1, 0]),
 (23,
  [3, 0, 0, 2, 0, 0, 1, 0, 0, 0, 0, 0, 0, 0, 0, 0, 0, 0, 0, 0, 0, 0, 0, 0, 0, 0, 0, 0, 0, 0, 0, 0, 0, 0, 0, 0, 0, 0, 0,
   0, 0, 0, 0, 0, 3, 0, 0, 0, 0, 0, 0, 0, 0, 0, 0, 0, 0, 0, 0, 0, 0, 0, 1, 1, 1, 1, 1, 1, 0, 0, 0, 0, 0, 0, 0, 0, 0, 0,
   0, 0, 0, 0, 0, 0, 0, 1, 0, 0, 0, 0, 0, 0, 0, 0, 0]),
 (24,
  [0, 0, 0, 0, 0, 0, 0, 0, 0, 0, 0, 0, 0, 0, 0, 0, 0, 0, 0, 0, 0, 0, 0, 0, 0, 0, 0, 0, 0, 0, 0, 0, 0, 0, 2, 4, 5, 5, 0,
   0, 0, 0, 0, 0, 0, 0, 0, 0, 0, 0, 0, 0, 0, 1, 0, 0, 3, 0, 0, 0, 0, 0, 0, 0, 0, 0, 0, 0, 0, 0, 0, 0, 0, 0, 0, 0, 1, 1,
   1, 1, 0, 0, 0, 0, 0, 0, 0, 0, 0, 0, 0, 0, 0, 0, 0]),
 (25,
  [0, 0, 0, 0, 0, 0, 0, 0, 0, 0, 0, 0, 0, 0, 0, 0, 0, 0, 0, 0, 0, 0, 0, 0, 0, 0, 0, 0, 0, 0, 0, 0, 0, 0, 0, 0, 0, 0, 0,
   0, 0, 0, 0, 0, 0, 0, 0, 0, 0, 0, 0, 0, 0, 0, 0, 0, 0, 0, 0, 0, 0, 0, 1, 1, 1, 1, 1, 1, 0, 0, 0, 0, 0, 0, 0, 0, 0, 0,
   0, 0, 0, 0, 0, 0, 0, 0, 0, 0, 0, 0, 0, 0, 0, 0, 0]),
 (26,
  [0, 0, 0, 0, 0, 0, 0, 0, 0, 0, 0, 0, 0, 0, 0, 0, 0, 0, 0, 0, 0, 0, 0, 0, 0, 0, 0, 0, 0, 0, 0, 0, 0, 0, 0, 0, 0, 0, 0,
   0, 0, 0, 0, 0, 0, 0, 0, 0, 0, 0, 0, 0, 0, 0, 0, 0, 0, 0, 0, 0, 0, 0, 0, 0, 0, 0, 0, 0, 0, 0, 0, 0, 0, 0, 0, 0, 0, 0,
   0, 0, 0, 0, 0, 0, 0, 0, 0, 0, 0, 0, 0, 0, 0, 0, 0]),
 (27,
  [1, 0, 0, 0, 0, 0, 0, 0, 0, 0, 0, 0, 0, 0, 0, 0, 0, 0, 0, 0, 0, 0, 0, 0, 0, 0, 0, 0, 0, 0, 0, 0, 0, 0, 0, 0, 0, 0, 0,
   0, 0, 0, 0, 0, 1, 0, 0, 0, 0, 0, 0, 0, 0, 0, 0, 0, 0, 0, 0, 0, 0, 0, 0, 0, 0, 0, 0, 0, 0, 0, 0, 0, 0, 0, 0, 0, 0, 0,
   0, 0, 0, 0, 0, 0, 0, 0, 0, 0, 0, 0, 0, 0, 0, 0, 0]),
 (28,
  [2, 0, 0, 1, 0, 0, 0, 0, 0, 0, 0, 0, 0, 0, 0, 0, 0, 0, 0, 0, 0, 0, 0, 0, 0, 0, 0, 0, 0, 0, 0, 0, 0, 0, 0, 0, 0, 0, 0,
   0, 0, 0, 0, 0, 2, 0, 0, 0, 0, 0, 0, 0, 0, 0, 0, 0, 0, 0, 0, 0, 0, 0, 0, 0, 0, 0, 0, 0, 0, 0, 0, 0, 0, 0, 0, 0, 0, 0,
   0, 0, 0, 0, 0, 0, 0, 0, 0, 0, 0, 0, 0, 0, 0, 0, 0]),
 (29,
  [0, 0, 0, 0, 0, 0, 0, 0, 0, 0, 0, 0, 0, 0, 0, 0, 0, 0, 0, 0, 0, 0, 0, 0, 0, 0, 0, 0, 0, 0, 0, 0, 0, 0, 0, 0, 0, 0, 0,
   0, 0, 0, 0, 0, 0, 0, 0, 0, 0, 0, 0, 0, 0, 0, 0, 0, 0, 0, 0, 0, 0, 0, 0, 0, 0, 0, 0, 0, 0, 0, 0, 0, 0, 0, 0, 0, 0, 0,
   0, 0, 0, 0, 0, 0, 0, 0, 0, 0, 0, 0, 0, 0, 0, 0, 0]),
 (30,
  [3, 0, 0, 2, 0, 0, 1, 0, 0, 0, 0, 0, 0, 0, 0, 0, 0, 0, 0, 0, 0, 0, 0, 0, 0, 0, 0, 0, 0, 0, 0, 0, 0, 0, 0, 0, 0, 0, 0,
   0, 0, 0, 0, 0, 3, 0, 0, 0, 0, 0, 0, 0, 0, 0, 0, 0, 0, 0, 0, 0, 0, 0, 0, 0, 0, 0, 0, 0, 0, 0, 0, 0, 0, 0, 0, 0, 0, 0,
   0, 0, 0, 0, 0, 0, 0, 1, 0, 0, 0, 0, 0, 0, 0, 0, 0]),
 (31,
  [3, 0, 0, 2, 0, 0, 1, 0, 0, 0, 0, 0, 0, 0, 0, 0, 0, 0, 0, 0, 0, 0, 0, 0, 0, 0, 0, 0, 0, 0, 0, 0, 0, 0, 0, 0, 0, 0, 0,
   0, 0, 0, 0, 0, 3, 0, 0, 0, 0, 0, 0, 0, 0, 0, 0, 0, 0, 0, 0, 0, 0, 0, 0, 0, 0, 0, 0, 0, 0, 0, 0, 0, 0, 0, 0, 0, 0, 0,
   0, 0, 0, 0, 0, 0, 0, 1, 0, 0, 0, 0, 0, 0, 0, 0, 0]),
 (32,
  [0, 0, 0, 0, 0, 0, 0, 0, 0, 0, 1, 0, 0, 0, 0, 0, 0, 0, 0, 3, 0, 0, 0, 0, 0, 0, 0, 0, 0, 0, 0, 0, 2, 0, 2, 4, 5, 5, 0,
   0, 0, 0, 0, 0, 0, 0, 0, 0, 0, 0, 1, 2, 1, 1, 0, 0, 3, 0, 0, 0, 0, 0, 0, 0, 0, 0, 0, 0, 1, 0, 0, 0, 0, 0, 1, 0, 1, 1,
   1, 1, 0, 0, 0, 0, 0, 0, 0, 0, 0, 0, 0, 0, 0, 0, 0]),
 (33,
  [3, 0, 0, 2, 0, 0, 1, 0, 0, 0, 0, 0, 0, 0, 0, 0, 0, 0, 0, 0, 0, 0, 0, 0, 0, 0, 0, 0, 0, 0, 0, 0, 0, 0, 0, 0, 0, 0, 0,
   0, 0, 0, 0, 0, 3, 0, 0, 0, 0, 0, 0, 0, 0, 0, 0, 0, 0, 0, 0, 0, 0, 0, 0, 0, 0, 0, 0, 0, 0, 0, 0, 0, 0, 0, 0, 0, 0, 0,
   0, 0, 0, 0, 0, 0, 0, 1, 0, 0, 0, 0, 0, 0, 0, 0, 0]),
 (34,
  [0, 0, 0, 0, 0, 0, 0, 0, 0, 0, 0, 0, 0, 0, 0, 0, 0, 0, 0, 0, 0, 0, 0, 0, 0, 0, 0, 0, 0, 0, 0, 0, 0, 0, 3, 5, 6, 6, 0,
   0, 0, 0, 0, 0, 0, 0, 0, 0, 0, 0, 0, 0, 0, 2, 0, 0, 4, 0, 0, 0, 1, 0, 0, 0, 0, 0, 0, 0, 0, 0, 0, 0, 0, 0, 0, 0, 1, 1,
   1, 1, 0, 0, 0, 0, 0, 0, 0, 0, 0, 0, 0, 0, 0, 0, 0]),
 (35,
  [3, 0, 0, 2, 0, 0, 1, 0, 0, 0, 0, 0, 0, 0, 0, 0, 0, 0, 0, 0, 0, 0, 0, 0, 0, 0, 0, 0, 0, 0, 0, 0, 0, 0, 0, 0, 0, 0, 0,
   0, 0, 0, 0, 0, 3, 0, 0, 0, 0, 0, 0, 0, 0, 0, 0, 0, 0, 0, 0, 0, 0, 0, 0, 0, 0, 0, 0, 0, 0, 0, 0, 0, 0, 0, 0, 0, 0, 0,
   0, 0, 0, 0, 0, 0, 0, 1, 0, 0, 0, 0, 0, 0, 0, 0, 0]),
 (36,
  [0, 0, 0, 0, 0, 0, 0, 0, 0, 0, 0, 0, 0, 0, 0, 0, 0, 0, 0, 0, 0, 0, 0, 0, 0, 0, 0, 0, 0, 0, 0, 0, 0, 0, 3, 5, 6, 6, 0,
   0, 0, 0, 0, 0, 0, 0, 0, 0, 0, 0, 0, 0, 0, 2, 0, 0, 4, 0, 0, 0, 1, 0, 0, 0, 0, 0, 0, 0, 0, 0, 0, 0, 0, 0, 0, 0, 1, 1,
   1, 1, 0, 0, 0, 0, 0, 0, 0, 0, 0, 0, 0, 0, 0, 0, 0]),
 (37,
  [3, 0, 0, 2, 0, 0, 1, 0, 0, 0, 0, 0, 0, 0, 0, 0, 0, 0, 0, 0, 0, 0, 0, 0, 0, 0, 0, 0, 0, 0, 0, 0, 0, 0, 0, 0, 0, 0, 0,
   0, 0, 0, 0, 0, 3, 0, 0, 0, 0, 0, 0, 0, 0, 0, 0, 0, 0, 0, 0, 0, 0, 0, 0, 0, 0, 0, 0, 0, 0, 0, 0, 0, 0, 0, 0, 0, 0, 0,
   0, 0, 0, 0, 0, 0, 0, 1, 0, 0, 0, 0, 0, 0, 0, 0, 0]),
 (38,
  [0, 0, 0, 0, 0, 0, 0, 0, 0, 0, 0, 0, 0, 0, 0, 0, 0, 0, 0, 0, 0, 0, 0, 0, 0, 0, 0, 0, 0, 0, 0, 0, 0, 0, 0, 0, 0, 0, 0,
   0, 0, 0, 0, 0, 0, 0, 0, 0, 0, 0, 0, 0, 0, 0, 0, 0, 0, 0, 0, 0, 0, 0, 1, 1, 1, 1, 1, 1, 0, 0, 0, 0, 0, 0, 0, 0, 0, 0,
   0, 0, 0, 0, 0, 0, 0, 0, 0, 0, 0, 0, 0, 0, 0, 0, 0]),
 (39,
  [0, 0, 0, 0, 0, 0, 0, 0, 0, 0, 0, 0, 0, 0, 0, 0, 0, 0, 0, 0, 0, 0, 0, 0, 0, 0, 0, 0, 0, 0, 0, 0, 0, 0, 2, 4, 5, 5, 0,
   0, 0, 0, 0, 0, 0, 0, 0, 0, 0, 0, 0, 0, 0, 1, 0, 0, 3, 0, 0, 0, 0, 0, 0, 0, 0, 0, 0, 0, 0, 0, 0, 0, 0, 0, 0, 0, 1, 1,
   1, 1, 0, 0, 0, 0, 0, 0, 0, 0, 0, 0, 0, 0, 0, 0, 0]),
 (40,
  [3, 0, 0, 2, 0, 0, 1, 0, 0, 0, 0, 0, 0, 0, 0, 0, 0, 0, 0, 0, 0, 0, 0, 0, 0, 0, 0, 0, 0, 0, 0, 0, 0, 0, 0, 0, 0, 0, 0,
   0, 0, 0, 0, 0, 3, 0, 0, 0, 0, 0, 0, 0, 0, 0, 0, 0, 0, 0, 0, 0, 0, 0, 0, 0, 0, 0, 0, 0, 0, 0, 0, 0, 0, 0, 0, 0, 0, 0,
   0, 0, 0, 0, 0, 0, 0, 1, 0, 0, 0, 0, 0, 0, 0, 0, 0]),
 (41,
  [0, 0, 0, 0, 0, 0, 0, 0, 0, 0, 0, 0, 0, 0, 0, 0, 0, 0, 0, 0, 0, 0, 0, 0, 0, 0, 0, 0, 0, 0, 0, 0, 0, 0, 0, 2, 3, 3, 0,
   0, 0, 0, 0, 0, 0, 0, 0, 0, 0, 0, 0, 0, 0, 0, 0, 0, 1, 0, 0, 0, 0, 0, 0, 0, 0, 0, 0, 0, 0, 0, 0, 0, 0, 0, 0, 0, 0, 0,
   1, 1, 0, 0, 0, 0, 0, 0, 0, 0, 0, 0, 0, 0, 0, 0, 0]),
 (42,
  [0, 0, 0, 0, 0, 0, 0, 0, 0, 0, 0, 0, 0, 0, 0, 0, 0, 0, 0, 0, 0, 0, 0, 0, 0, 0, 0, 0, 0, 0, 0, 0, 0, 0, 0, 2, 3, 3, 0,
   0, 0, 0, 0, 0, 0, 0, 0, 0, 0, 0, 0, 0, 0, 0, 0, 0, 1, 0, 0, 0, 0, 0, 0, 0, 0, 0, 0, 0, 0, 0, 0, 0, 0, 0, 0, 0, 0, 0,
   1, 1, 0, 0, 0, 0, 0, 0, 0, 0, 0, 0, 0, 0, 0, 0, 0]),
 (43,
  [0, 0, 0, 0, 0, 0, 0, 0, 0, 0, 0, 0, 0, 0, 0, 0, 0, 0, 0, 0, 0, 0, 0, 0, 0, 0, 0, 0, 0, 0, 0, 0, 0, 0, 0, 0, 1, 1, 0,
   0, 0, 0, 0, 0, 0, 0, 0, 0, 0, 0, 0, 0, 0, 0, 0, 0, 0, 0, 0, 0, 0, 0, 0, 0, 0, 0, 0, 0, 0, 0, 0, 0, 0, 0, 0, 0, 0, 0,
   0, 0, 0, 0, 0, 0, 0, 0, 0, 0, 0, 0, 0, 0, 0, 0, 0]),
 (44,
  [0, 0, 0, 0, 0, 0, 0, 0, 0, 0, 0, 0, 0, 0, 0, 0, 0, 0, 0, 0, 0, 0, 0, 0, 0, 0, 0, 0, 0, 0, 0, 0, 0, 0, 0, 0, 1, 1, 0,
   0, 0, 0, 0, 0, 0, 0, 0, 0, 0, 0, 0, 0, 0, 0, 0, 0, 0, 0, 0, 0, 0, 0, 0, 0, 0, 0, 0, 0, 0, 0, 0, 0, 0, 0, 0, 0, 0, 0,
   0, 0, 0, 0, 0, 0, 0, 0, 0, 0, 0, 0, 0, 0, 0, 0, 0]),
 (45,
  [0, 0, 0, 0, 0, 0, 0, 0, 0, 0, 0, 0, 0, 0, 0, 0, 0, 0, 0, 0, 0, 0, 0, 0, 0, 0, 0, 0, 0, 0, 0, 0, 0, 0, 0, 0, 0, 0, 0,
   0, 0, 0, 0, 0, 0, 0, 0, 0, 0, 0, 0, 0, 0, 0, 0, 0, 0, 0, 0, 0, 0, 0, 0, 0, 0, 0, 0, 0, 0, 0, 0, 0, 0, 0, 0, 0, 0, 0,
   0, 0, 0, 0, 0, 0, 0, 0, 0, 0, 0, 0, 0, 0, 0, 0, 0]),
 (46,
  [0, 0, 0, 0, 0, 0, 0, 0, 0, 0, 0, 0, 0, 0, 0, 0, 0, 0, 0, 0, 0, 0, 0, 0, 0, 0, 0, 0, 0, 0, 0, 0, 0, 0, 2, 4, 5, 5, 0,
   0, 0, 0, 0, 0, 0, 0, 0, 0, 0, 0, 0, 0, 0, 1, 0, 0, 3, 0, 0, 0, 0, 0, 0, 0, 0, 0, 0, 0, 0, 0, 0, 0, 0, 0, 0, 0, 1, 1,
   1, 1, 0, 0, 0, 0, 0, 0, 0, 0, 0, 0, 0, 0, 0, 0, 0]),
 (47,
  [0, 0, 0, 0, 0, 0, 0, 0, 0, 0, 0, 0, 0, 0, 0, 0, 0, 0, 0, 0, 0, 0, 0, 0, 0, 0, 0, 0, 0, 0, 0, 0, 0, 0, 2, 4, 5, 5, 0,
   0, 0, 0, 0, 0, 0, 0, 0, 0, 0, 0, 0, 0, 0, 1, 0, 0, 3, 0, 0, 0, 0, 0, 0, 0, 0, 0, 0, 0, 0, 0, 0, 0, 0, 0, 0, 0, 1, 1,
   1, 1, 0, 0, 0, 0, 0, 0, 0, 0, 0, 0, 0, 0, 0, 0, 0]),
 (48,
  [0, 0, 0, 0, 0, 0, 0, 0, 0, 0, 0, 0, 0, 0, 0, 0, 0, 0, 0, 0, 0, 0, 0, 0, 0, 0, 0, 0, 0, 0, 0, 0, 0, 0, 2, 4, 5, 5, 0,
   0, 0, 0, 0, 0, 0, 0, 0, 0, 0, 0, 0, 0, 0, 1, 0, 0, 3, 0, 0, 0, 0, 0, 0, 0, 0, 0, 0, 0, 0, 0, 0, 0, 0, 0, 0, 0, 1, 1,
   1, 1, 0, 0, 0, 0, 0, 0, 0, 0, 0, 0, 0, 0, 0, 0, 0]),
 (49,
  [0, 0, 0, 0, 0, 0, 0, 0, 0, 0, 0, 0, 0, 0, 0, 0, 0, 0, 0, 0, 0, 0, 0, 0, 0, 0, 0, 0, 0, 0, 0, 0, 0, 0, 2, 4, 5, 5, 0,
   0, 0, 0, 0, 0, 0, 0, 0, 0, 0, 0, 0, 0, 0, 1, 0, 0, 3, 0, 0, 0, 0, 0, 0, 0, 0, 0, 0, 0, 0, 0, 0, 0, 0, 0, 0, 0, 1, 1,
   1, 1, 0, 0, 0, 0, 0, 0, 0, 0, 0, 0, 0, 0, 0, 0, 0]),
 (50,
  [0, 0, 0, 0, 0, 0, 0, 0, 0, 0, 0, 0, 0, 0, 0, 0, 0, 0, 0, 0, 0, 0, 0, 0, 0, 0, 0, 0, 0, 0, 0, 0, 0, 0, 2, 4, 5, 5, 0,
   0, 0, 0, 0, 0, 0, 0, 0, 0, 0, 0, 0, 0, 0, 1, 0, 0, 3, 0, 0, 0, 0, 0, 0, 0, 0, 0, 0, 0, 0, 0, 0, 0, 0, 0, 0, 0, 1, 1,
   1, 1, 0, 0, 0, 0, 0, 0, 0, 0, 0, 0, 0, 0, 0, 0, 0]),
 (51,
  [0, 0, 0, 0, 0, 1, 0, 0, 0, 0, 0, 0, 0, 0, 0, 0, 0, 0, 0, 0, 0, 0, 0, 0, 0, 0, 0, 0, 0, 0, 0, 0, 0, 0, 0, 0, 0, 0, 0,
   0, 0, 0, 0, 0, 0, 0, 0, 0, 0, 0, 0, 0, 0, 0, 0, 0, 0, 0, 0, 0, 0, 0, 0, 0, 0, 0, 0, 0, 0, 0, 0, 0, 0, 0, 0, 0, 0, 0,
   0, 0, 0, 0, 0, 0, 0, 0, 0, 0, 0, 0, 0, 0, 0, 0, 0])]

def transMatrixLit : List (List (Sym × Nat)) := [
  [(1, 1), (2, 2), (3, 3), (21, 4)],
  [],
  [(20, 5)],
  [(6, 6), (27, 7)],
  [(4, 8), (23, 9)],
  [],
  [(9, 10), (28, 11)],
  [(7, 12), (23, 13)],
  [(22, 14)],
  [(24, 15)],
  [(10, 16), (23, 17), (30, 18), (31, 19), (33, 20), (35, 21), (37, 22), (40, 23)],
  [(23, 24)],
  [(22, 25)],
  [(8, 26), (26, 27)],
  [],
  [(25, 28)],
  [],
  [(29, 29)],
  [(23, 30)],
  [(23, 17), (30, 18), (31, 19), (11, 31), (33, 20), (35, 21), (37, 22), (40, 23), (10, 32)],
  [(18, 33), (15, 34), (17, 35), (23, 36), (25, 37), (38, 38), (45, 39), (13, 40)],
  [(18, 41), (15, 34), (17, 35), (23, 36), (25, 37), (38, 38), (45, 39), (13, 40)],
  [(38, 42)],
  [(38, 43)],
  [(22, 44)],
  [],
  [],
  [(23, 45)],
  [(5, 46), (26, 47)],
  [(13, 48), (15, 34), (17, 35), (23, 36), (25, 37), (38, 38)],
  [],
  [(32, 49)],
  [(12, 50), (22, 51)],
  [(34, 52)],
  [(14, 53), (41, 54), (42, 55)],
  [(16, 56), (43, 57), (44, 58)],
  [],
  [],
  [(15, 34), (17, 35), (23, 36), (25, 37), (38, 38), (13, 59)],
  [(15, 34), (17, 35), (23, 36), (25, 37), (38, 38), (13, 60)],
  [(19, 61), (24, 62), (46, 63), (47, 64), (48, 65), (49, 66), (50, 67)],
  [(36, 68)],
  [(23, 69)],
  [(13, 70), (15, 34), (17, 35), (23, 36), (25, 37), (38, 38)],
  [(3, 3), (21, 4), (2, 71)],
  [(26, 27), (8, 72)],
  [],
  [(23, 73)],
  [],
  [],
  [],
  [(23, 17), (30, 18), (31, 19), (33, 20), (35, 21), (37, 22), (40, 23), (10, 74)],
  [(23, 17), (30, 18), (31, 19), (33, 20), (10, 75), (35, 21), (37, 22), (40, 23)],
  [],
  [(15, 76), (17, 35), (23, 36), (25, 37), (38, 38)],
  [(15, 77), (17, 35), (23, 36), (25, 37), (38, 38)],
  [],
  [(17, 78), (23, 36), (25, 37), (38, 38)],
  [(17, 79), (23, 36), (25, 37), (38, 38)],
  [(39, 80)],
  [],
  [(15, 34), (17, 35), (23, 36), (25, 37), (38, 38), (13, 81)],
  [],
  [],
  [],
  [],
  [],
  [],
  [(23, 17), (30, 18), (31, 19), (33, 20), (35, 21), (10, 82), (37, 22), (40, 23)],
  [(39, 83)],
  [(39, 84)],
  [(22, 85)],
  [],
  [(24, 86)],
  [(22, 51), (12, 87)],
  [],
  [(41, 54), (14, 88), (42, 55)],
  [(41, 54), (42, 55), (14, 89)],
  [(43, 57), (16, 90), (44, 58)],
  [(43, 57), (44, 58), (16, 91)],
  [],
  [],
  [],
  [],
  [],
  [(28, 11), (9, 92)],
  [(25, 93)],
  [],
  [],
  [],
  [],
  [],
  [],
  [(26, 47), (5, 94)],
  []]

/-! ## Bridge theorems: the pipeline evaluates to the literal tables -/

set_option maxRecDepth 40000 in
set_option maxHeartbeats 4000000 in
theorem terminalsEq : terminals = terminalsLit := rfl

set_option maxRecDepth 40000 in
set_option maxHeartbeats 4000000 in
theorem nonterminalsEq : nonterminals = nonterminalsLit := rfl

set_option maxRecDepth 40000 in
set_option maxHeartbeats 4000000 in
theorem canonicalEq : canonical = (statesLit, transitionsLit) := by
  unfold canonical initState
  rw [nonterminalsEq]
  rfl

theorem statesEq : states = statesLit := by
  unfold states; rw [canonicalEq]

theorem transitionsEq : transitions = transitionsLit := by
  unfold transitions; rw [canonicalEq]

set_option maxRecDepth 40000 in
set_option maxHeartbeats 4000000 in
theorem firstEq : FIRSTfinal = firstLit := by
  unfold FIRSTfinal
  rw [terminalsEq, nonterminalsEq]
  rfl

set_option maxRecDepth 40000 in
set_option maxHeartbeats 4000000 in
theorem followEq : FOLLOWfinal = followLit := by
  unfold FOLLOWfinal
  rw [terminalsEq, nonterminalsEq, firstEq]
  rfl

set_option maxRecDepth 40000 in
set_option maxHeartbeats 4000000 in
theorem actionEq : actionTable = actionLit := by
  unfold actionTable
  rw [statesEq, terminalsEq, nonterminalsEq, transitionsEq, followEq]
  rfl

set_option maxRecDepth 40000 in
set_option maxHeartbeats 4000000 in
theorem eventsEq : assignEvents = eventsLit := by
  unfold assignEvents
  rw [statesEq, terminalsEq, nonterminalsEq, transitionsEq, followEq]
  rfl

/-- Row-wise check of the GOTO table against its literal, over a block of
states (split into blocks so each check stays small). -/
def gotoChunkB (lo n : Nat) : Bool :=
  (List.range' lo n).all
    (fun i => gotoRowFn nonterminalsLit transitionsLit i == gotoLit.getD i [])

set_option maxRecDepth 40000 in
set_option maxHeartbeats 4000000 in
theorem gotoChunk0 : gotoChunkB 0 12 = true := rfl

set_option maxRecDepth 40000 in
set_option maxHeartbeats 4000000 in
theorem gotoChunk1 : gotoChunkB 12 12 = true := rfl

set_option maxRecDepth 40000 in
set_option maxHeartbeats 4000000 in
theorem gotoChunk2 : gotoChunkB 24 12 = true := rfl

set_option maxRecDepth 40000 in
set_option maxHeartbeats 4000000 in
theorem gotoChunk3 : gotoChunkB 36 12 = true := rfl

set_option maxRecDepth 40000 in
set_option maxHeartbeats 4000000 in
theorem gotoChunk4 : gotoChunkB 48 12 = true := rfl

set_option maxRecDepth 40000 in
set_option maxHeartbeats 4000000 in
theorem gotoChunk5 : gotoChunkB 60 12 = true := rfl

set_option maxRecDepth 40000 in
set_option maxHeartbeats 4000000 in
theorem gotoChunk6 : gotoChunkB 72 12 = true := rfl

set_option maxRecDepth 40000 in
set_option maxHeartbeats 4000000 in
theorem gotoChunk7 : gotoChunkB 84 11 = true := rfl

theorem gotoChunk_extract {lo n i : Nat} (h : gotoChunkB lo n = true)
    (h1 : lo ≤ i) (h2 : i < lo + n) :
    gotoRowFn nonterminalsLit transitionsLit i = gotoLit.getD i [] := by
  unfold gotoChunkB at h
  have hm : i ∈ List.range' lo n := by
    rw [List.mem_range'_1]
    exact ⟨h1, h2⟩
  exact eq_of_beq (List.all_eq_true.mp h i hm)

theorem gotoRow_eq {i : Nat} (hi : i < 95) :
    gotoRowFn nonterminalsLit transitionsLit i = gotoLit.getD i [] := by
  rcases Nat.lt_or_ge i 12 with h | h
  · exact gotoChunk_extract gotoChunk0 (by omega) (by omega)
  rcases Nat.lt_or_ge i 24 with h' | h'
  · exact gotoChunk_extract gotoChunk1 h (by omega)
  rcases Nat.lt_or_ge i 36 with h'' | h''
  · exact gotoChunk_extract gotoChunk2 h' (by omega)
  rcases Nat.lt_or_ge i 48 with h3 | h3
  · exact gotoChunk_extract gotoChunk3 h'' (by omega)
  rcases Nat.lt_or_ge i 60 with h4 | h4
  · exact gotoChunk_extract gotoChunk4 h3 (by omega)
  rcases Nat.lt_or_ge i 72 with h5 | h5
  · exact gotoChunk_extract gotoChunk5 h4 (by omega)
  rcases Nat.lt_or_ge i 84 with h6 | h6
  · exact gotoChunk_extract gotoChunk6 h5 (by omega)
  · exact gotoChunk_extract gotoChunk7 h6 (by omega)

theorem map_range'_eq {α : Type} (f : Nat → α) : ∀ (n lo : Nat) (l : List α),
    l.length = n → (∀ i, i < n → l.get? i = some (f (lo + i))) →
    (List.range' lo n).map f = l := by
  intro n
  induction n with
  | zero =>
    intro lo l hl _
    rw [List.length_eq_zero] at hl
    subst hl
    rfl
  | succ n ih =>
    intro lo l hl hg
    rcases l with _ | ⟨a, l'⟩
    · simp at hl
    · have h0 := hg 0 (Nat.succ_pos n)
      have ha : a = f lo := by simpa using h0
      have ht : (List.range' (lo + 1) n).map f = l' := by
        apply ih (lo + 1) l' (by simpa using hl)
        intro i hi
        have hgi := hg (i + 1) (by omega)
        have harith : lo + (i + 1) = lo + 1 + i := by omega
        rw [harith] at hgi
        simpa using hgi
      calc (List.range' lo (n + 1)).map f
          = f lo :: (List.range' (lo + 1) n).map f := rfl
        _ = a :: l' := by rw [ha, ht]

theorem get?_eq_some_getD {α : Type} {l : List α} {i : Nat} (d : α)
    (h : i < l.length) : l.get? i = some (l.getD i d) := by
  rw [List.getD_eq_get?]
  rcases hq : l.get? i with _ | v
  · exact absurd (List.get?_eq_none.mp hq) (by omega)
  · rfl

theorem gotoEq : gotoTable = gotoLit := by
  unfold gotoTable
  rw [statesEq, nonterminalsEq, transitionsEq]
  have hlen : statesLit.length = 95 := rfl
  rw [hlen, List.range_eq_range']
  apply map_range'_eq _ 95 0 gotoLit rfl
  intro i hi
  have hlg : gotoLit.length = 95 := rfl
  rw [Nat.zero_add, gotoRow_eq hi]
  exact get?_eq_some_getD [] (by omega)

/-- The parser instance with every table replaced by its literal value. -/
def litParser (toks : List Token) : SLRParser :=
  { tokens := toks
    terminals := terminalsLit
    nonterminals := nonterminalsLit
    productions := productions
    startSymbol := startSymbol
    states := statesLit
    transitions := transitionsLit
    FIRST := firstLit
    FOLLOW := followLit
    action := actionLit
    goto := gotoLit }

theorem initEq (toks : List Token) : SLRParser.init toks = litParser toks := by
  unfold SLRParser.init litParser
  rw [terminalsEq, nonterminalsEq, statesEq, transitionsEq, firstEq, followEq,
    actionEq, gotoEq]

/-! ## Verification helpers

Shorthand lookups over the literal tables, the stack-weight potential and
the lookahead rank used by the termination argument, and the well-formed
stack predicate (`Chained`). -/

/-- ACTION row of a state, over the literal table. -/
def aRow (i : Nat) : List (Sym × Action) := actionLit.getD i []

/-- Item set of a state, over the literal table. -/
def sItems (i : Nat) : List Nat := statesLit.getD i []

/-- Transition lookup over the literal transition list. -/
def tLook (i : Nat) (X : Sym) : Option Nat := transLookup transitionsLit i X

/-- Transition lookup over the per-state matrix form (same data as
`transitionsLit`, grouped by source state). -/
def mtrans (i : Nat) (X : Sym) : Option Nat :=
  ((transMatrixLit.getD i []).find? (fun e => e.1 == X)).map (·.2)

/-- GOTO lookup over the literal GOTO table. -/
def mgoto (u : Nat) (A : Sym) : Option Nat :=
  ((gotoLit.getD u []).find? (fun e => e.1 == A)).map (·.2)

/-- Follow a symbol string through the matrix transition table. -/
def followPathM (u : Nat) (γ : List Sym) : Option Nat :=
  γ.foldl (fun acc X => acc.bind (fun t => mtrans t X)) (some u)

/-- Total weight of a parse stack (sum of the entry-symbol weights of its
states). -/
def phi (stack : List Nat) : Nat := (stack.map (fun s => wStateLit.getD s 0)).sum

/-- Rank of a state for a given lookahead terminal (0 outside the table). -/
def rnkS (a : Sym) (t : Nat) : Nat :=
  ((rankLit.find? (fun e => e.1 == a)).map (fun e => e.2.getD t 0)).getD 0

/-- Rank for a lookahead value (an integer lookahead never reduces). -/
def rnk (v : PyVal) (t : Nat) : Nat :=
  match v with
  | .vsym a => rnkS a t
  | .vint _ => 0

/-- The loop variant: remaining input, stack weight and lookahead rank,
lexicographically flattened. -/
def measureOf (n ip : Nat) (stack : List Nat) (v : PyVal) : Nat :=
  (n + 1 - ip) * 14 + phi stack * 7 + rnk v (stack.headD 0)

def isOutOfFuel : Except ParseErr Bool → Bool
  | .error .outOfFuel => true
  | _ => false

def isCursorErr : Except ParseErr Bool → Bool
  | .error .cursorError => true
  | _ => false

/-- Well-formed parse stacks: grown from `[0]` by pushes along transitions
of the automaton. -/
inductive Chained : List Nat → Prop where
  | base : Chained [0]
  | push (t b : Nat) (s : List Nat) (X : Sym) :
      tLook b X = some t → Chained (b :: s) → Chained (t :: b :: s)

/-! ## Decidable facts about the literal tables -/

/-- Every transition is present in the matrix form. -/
def matrixFactB : Bool :=
  transitionsLit.all (fun e => mtrans e.1.1 e.1.2 == some e.2)

/-- Every shift entry comes from a transition, its target state carries
weight 1 (it is entered by a terminal), and no shift is on the end
marker. -/
def shiftFactB : Bool :=
  (List.range 95).all (fun i => (aRow i).all (fun e =>
    match e.2 with
    | .shift t =>
      (tLook i e.1 == some t) && (wStateLit.getD t 0 == 1) && (e.1 != dollar)
    | _ => true))

/-- Every reduce entry names a production whose complete item is in the
state, with a right-hand side shorter than 8. -/
def reduceFactB : Bool :=
  (List.range 95).all (fun i => (aRow i).all (fun e =>
    match e.2 with
    | .reduce p =>
      match productions.get? p with
      | some pr =>
        (sItems i).contains (p * 8 + pr.2.length) && Nat.blt pr.2.length 8
      | none => false
    | _ => true))

/-- Every GOTO entry comes from a transition. -/
def gotoFactB : Bool :=
  (List.range 95).all (fun u => (gotoLit.getD u []).all (fun e =>
    tLook u e.1 == some e.2))

/-- Weight coherence: a state entered over symbol `X` weighs `wSym X`, is
never state 0, and is in range. -/
def wFactB : Bool :=
  transitionsLit.all (fun e =>
    (wStateLit.getD e.2 0 == wSym e.1.2) && (e.2 != 0) && Nat.blt e.2 95)

/-- Every production weighs at least its left-hand side. -/
def monoFactB : Bool :=
  productions.all (fun p => Nat.ble (wSym p.1) ((p.2.map wSym).sum))

/-- Every item of state 0 has its dot at position 0. -/
def state0FactB : Bool := (sItems 0).all (fun c => c % 8 == 0)

/-- Entering a state over `X`, every dot-advanced item of the target has
`X` before the dot and its dot-retracted form in the source state. -/
def pathFactB : Bool :=
  transitionsLit.all (fun e =>
    (statesLit.getD e.2 []).all (fun c =>
      if c % 8 == 0 then true
      else ((itemRhs c).get? (c % 8 - 1) == some e.1.2) &&
        (statesLit.getD e.1.1 []).contains (c - 1)))

/-- For every reduce entry on a weight-level production, the goto target
of every possible stack context has strictly smaller rank at that
lookahead. -/
def rankFactB : Bool :=
  (List.range productions.length).all (fun p =>
    match productions.get? p with
    | none => true
    | some pr =>
      prodWeightDrop pr ||
      (List.range 95).all (fun u =>
        match followPathM u pr.2 with
        | some t =>
          (aRow t).all (fun e =>
            match e.2 with
            | .reduce q =>
              if q == p then
                match mgoto u pr.1 with
                | some g => Nat.blt (rnkS e.1 g) (rnkS e.1 t)
                | none => true
              else true
            | _ => true)
        | none => true))

/-- All rank-table entries are at most 6. -/
def rankBoundB : Bool := rankLit.all (fun e => e.2.all (fun r => Nat.ble r 6))

set_option maxRecDepth 40000 in
set_option maxHeartbeats 4000000 in
theorem factsHold :
    matrixFactB = true ∧ shiftFactB = true ∧ reduceFactB = true ∧
    gotoFactB = true ∧ wFactB = true ∧ monoFactB = true ∧
    state0FactB = true ∧ pathFactB = true ∧ rankFactB = true ∧
    rankBoundB = true :=
  ⟨rfl, rfl, rfl, rfl, rfl, rfl, rfl, rfl, rfl, rfl⟩

/-! ## Fact extraction lemmas -/

theorem lookupRow_mem {row : List (Sym × Action)} {a : Sym} {v : Action}
    (h : lookupRow row a = some v) : (a, v) ∈ row := by
  unfold lookupRow at h
  rcases Option.map_eq_some'.mp h with ⟨e, hf, hv⟩
  have hp := List.find?_some hf
  have hm := List.mem_of_find?_eq_some hf
  have ha : e.1 = a := by simpa using hp
  have : e = (a, v) := by
    cases e; simp only at ha hv; simp [ha, hv]
  simpa [this] using hm

theorem getD_ne_nil_lt {α : Type} {l : List (List α)} {i : Nat}
    (h : l.getD i [] ≠ []) : i < l.length := by
  by_contra hl
  exact h (List.getD_eq_default _ _ (Nat.le_of_not_lt hl))

theorem actionRow_bound {i : Nat} {a : Sym} {v : Action}
    (h : lookupRow (actionLit.getD i []) a = some v) : i < 95 ∧ (a, v) ∈ aRow i := by
  have hm := lookupRow_mem h
  have hne : actionLit.getD i [] ≠ [] := by
    intro he; rw [he] at hm; exact absurd hm (List.not_mem_nil _)
  have hlen : actionLit.length = 95 := by rfl
  exact ⟨hlen ▸ getD_ne_nil_lt hne, hm⟩

theorem tLook_mem {i : Nat} {X : Sym} {j : Nat} (h : tLook i X = some j) :
    ((i, X), j) ∈ transitionsLit := by
  unfold tLook transLookup at h
  rcases Option.map_eq_some'.mp h with ⟨e, hf, hv⟩
  have hp := List.find?_some hf
  have hm := List.mem_of_find?_eq_some hf
  rw [Bool.and_eq_true] at hp
  rcases hp with ⟨h1, h2⟩
  have e1 : e.1.1 = i := by simpa using h1
  have e2 : e.1.2 = X := by simpa using h2
  have : e = ((i, X), j) := by
    rcases e with ⟨⟨x, y⟩, z⟩
    simp only at e1 e2 hv
    simp [e1, e2, hv]
  simpa [this] using hm

theorem tLook_to_mtrans {i : Nat} {X : Sym} {j : Nat} (h : tLook i X = some j) :
    mtrans i X = some j := by
  have hm := tLook_mem h
  have hall := List.all_eq_true.mp factsHold.1 _ hm
  simpa using hall

theorem shiftFact {i : Nat} {a : Sym} {t : Nat}
    (h : lookupRow (actionLit.getD i []) a = some (.shift t)) :
    tLook i a = some t ∧ wStateLit.getD t 0 = 1 ∧ a ≠ dollar := by
  rcases actionRow_bound h with ⟨hi, hm⟩
  have hr := List.all_eq_true.mp factsHold.2.1 i (List.mem_range.mpr hi)
  have he := List.all_eq_true.mp hr _ hm
  simp only at he
  rw [Bool.and_eq_true] at he
  rcases he with ⟨h12, h3⟩
  rw [Bool.and_eq_true] at h12
  rcases h12 with ⟨h1, h2⟩
  refine ⟨by simpa using h1, by simpa using h2, ?_⟩
  simpa using h3

theorem reduceFact {i : Nat} {a : Sym} {p : Nat}
    (h : lookupRow (actionLit.getD i []) a = some (.reduce p)) :
    ∃ pr, productions.get? p = some pr ∧
      (p * 8 + pr.2.length) ∈ sItems i ∧ pr.2.length < 8 := by
  rcases actionRow_bound h with ⟨hi, hm⟩
  have hr := List.all_eq_true.mp factsHold.2.2.1 i (List.mem_range.mpr hi)
  have he := List.all_eq_true.mp hr _ hm
  simp only at he
  rcases hpr : productions.get? p with _ | pr
  · rw [hpr] at he; simp at he
  · rw [hpr] at he
    simp only at he
    rw [Bool.and_eq_true] at he
    rcases he with ⟨h1, h2⟩
    exact ⟨pr, rfl, by simpa using h1, by simpa [Nat.blt_eq] using h2⟩

theorem gotoFact {u : Nat} {A : Sym} {g : Nat} (h : mgoto u A = some g) :
    tLook u A = some g := by
  unfold mgoto at h
  rcases Option.map_eq_some'.mp h with ⟨e, hf, hv⟩
  have hp := List.find?_some hf
  have hm := List.mem_of_find?_eq_some hf
  have hne : gotoLit.getD u [] ≠ [] := by
    intro he; rw [he] at hm; exact absurd hm (List.not_mem_nil _)
  have hlen : gotoLit.length = 95 := by rfl
  have hu : u < 95 := hlen ▸ getD_ne_nil_lt hne
  have hr := List.all_eq_true.mp factsHold.2.2.2.1 u (List.mem_range.mpr hu)
  have he := List.all_eq_true.mp hr _ hm
  have e1 : e.1 = A := by simpa using hp
  have : tLook u e.1 = some e.2 := by simpa using he
  rw [e1, hv] at this
  exact this

theorem wFactOf {i : Nat} {X : Sym} {j : Nat} (h : tLook i X = some j) :
    wStateLit.getD j 0 = wSym X ∧ j ≠ 0 ∧ j < 95 := by
  have hm := tLook_mem h
  have he := List.all_eq_true.mp factsHold.2.2.2.2.1 _ hm
  simp only at he
  rw [Bool.and_eq_true] at he
  rcases he with ⟨h12, h3⟩
  rw [Bool.and_eq_true] at h12
  rcases h12 with ⟨h1, h2⟩
  exact ⟨by simpa using h1, by simpa using h2, by simpa [Nat.blt_eq] using h3⟩

theorem monoFact {p : Nat} {pr : Sym × List Sym} (h : productions.get? p = some pr) :
    wSym pr.1 ≤ (pr.2.map wSym).sum := by
  have hm : pr ∈ productions := List.get?_mem h
  have he := List.all_eq_true.mp factsHold.2.2.2.2.2.1 _ hm
  simpa [Nat.ble_eq] using he

theorem state0Fact {c : Nat} (h : c ∈ sItems 0) : c % 8 = 0 := by
  have he := List.all_eq_true.mp factsHold.2.2.2.2.2.2.1 _ h
  simpa using he

theorem pathFact {b : Nat} {X : Sym} {t : Nat} {c : Nat}
    (h : tLook b X = some t) (hc : c ∈ sItems t) (hd : c % 8 ≠ 0) :
    (itemRhs c).get? (c % 8 - 1) = some X ∧ (c - 1) ∈ sItems b := by
  have hm := tLook_mem h
  have hr := List.all_eq_true.mp factsHold.2.2.2.2.2.2.2.1 _ hm
  have he := List.all_eq_true.mp hr _ hc
  simp only at he
  rw [if_neg (by simpa using hd)] at he
  rw [Bool.and_eq_true] at he
  rcases he with ⟨h1, h2⟩
  refine ⟨by simpa using h1, ?_⟩
  simpa [sItems, List.getD_eq_getElem?_getD] using h2

theorem rankFact {p : Nat} {pr : Sym × List Sym} {u t : Nat} {a : Sym} {g : Nat}
    (hp : productions.get? p = some pr) (hnd : prodWeightDrop pr ≠ true)
    (hu : u < 95) (hfp : followPathM u pr.2 = some t)
    (hm : (a, Action.reduce p) ∈ aRow t) (hg : mgoto u pr.1 = some g) :
    rnkS a g < rnkS a t := by
  have hplen : p < productions.length := List.get?_eq_some.mp hp |>.1
  have hone := List.all_eq_true.mp factsHold.2.2.2.2.2.2.2.2.1 p (List.mem_range.mpr hplen)
  rw [hp] at hone
  simp only at hone
  rw [Bool.or_eq_true] at hone
  rcases hone with hd | hrest
  · exact absurd hd hnd
  · have hru := List.all_eq_true.mp hrest u (List.mem_range.mpr hu)
    rw [hfp] at hru
    simp only at hru
    have he := List.all_eq_true.mp hru _ hm
    simp only at he
    rw [if_pos (by simp)] at he
    rw [hg] at he
    simpa [Nat.blt_eq] using he

theorem allLe_getD {l : List Nat} {t : Nat} (h : l.all (fun r => Nat.ble r 6) = true) :
    l.getD t 0 ≤ 6 := by
  rw [List.getD_eq_get?]
  rcases hg : l.get? t with _ | r
  · simp
  · have hm : r ∈ l := List.get?_mem hg
    have := List.all_eq_true.mp h _ hm
    simpa [Nat.ble_eq] using this

theorem rankBound (v : PyVal) (t : Nat) : rnk v t ≤ 6 := by
  rcases v with a | n
  · show rnkS a t ≤ 6
    unfold rnkS
    rcases hf : rankLit.find? (fun e => e.1 == a) with _ | e
    · simp [hf]
    · rw [hf]
      have hm := List.mem_of_find?_eq_some hf
      have hall := List.all_eq_true.mp factsHold.2.2.2.2.2.2.2.2.2 _ hm
      simpa using allLe_getD (t := t) hall
  · simp [rnk]

/-! ## The stack-walking lemma

If the top state of a well-formed stack holds an item with dot position
`d`, then the `d` states below the top spell the first `d` right-hand-side
symbols of that item: popping them lands on a state from which the
transition table walks back up to the top along those symbols. -/

theorem pop_ok : ∀ (d : Nat) {c : Nat} {stack : List Nat} {t : Nat},
    Chained stack → stack.head? = some t → c ∈ sItems t → itemDot c = d →
    ∃ u rest, stack.drop d = u :: rest ∧ Chained (u :: rest) ∧
      (c - d) ∈ sItems u ∧
      followPathM u ((itemRhs c).take d) = some t ∧
      phi stack = phi (u :: rest) + (((itemRhs c).take d).map wSym).sum := by
  intro d
  induction d with
  | zero =>
    intro c stack t hch hh hc _
    rcases stack with _ | ⟨h0, tl⟩
    · simp at hh
    · have ht : h0 = t := by simpa using hh
      subst ht
      exact ⟨h0, tl, rfl, hch, by simpa using hc, rfl, by simp⟩
  | succ d ih =>
    intro c stack t hch hh hc hdot
    have hmod : c % 8 = d + 1 := hdot
    cases hch with
    | base =>
      have ht : t = 0 := by simpa using hh.symm
      subst ht
      have := state0Fact hc
      omega
    | push t' b s X hlink hch' =>
      have ht : t' = t := by simpa using hh
      subst ht
      have hd8 : c % 8 < 8 := Nat.mod_lt _ (by omega)
      rcases pathFact hlink hc (by omega) with ⟨hX, hmem⟩
      have hc1div : (c - 1) / 8 = c / 8 := by omega
      have hc1mod : (c - 1) % 8 = d := by omega
      have hrhs_eq : itemRhs (c - 1) = itemRhs c := by
        unfold itemRhs itemProd
        rw [hc1div]
      have hdot1 : itemDot (c - 1) = d := hc1mod
      rcases ih hch' rfl hmem hdot1 with ⟨u, rest, hdrop, hchu, hcu, hfp, hphi⟩
      have hgetX : (itemRhs c).get? d = some X := by
        have : c % 8 - 1 = d := by omega
        rwa [this] at hX
      have hgetX2 : (itemRhs c)[d]? = some X := by
        rw [← List.get?_eq_getElem?]
        exact hgetX
      have htake : (itemRhs c).take (d + 1) = (itemRhs c).take d ++ [X] := by
        rw [List.take_succ, hgetX2]
        rfl
      refine ⟨u, rest, ?_, hchu, ?_, ?_, ?_⟩
      · simpa using hdrop
      · have : c - (d + 1) = c - 1 - d := by omega
        rw [this]
        exact hcu
      · rw [htake]
        unfold followPathM at hfp ⊢
        rw [List.foldl_append]
        rw [hrhs_eq] at hfp
        rw [hfp]
        simpa using tLook_to_mtrans hlink
      · have hw : wStateLit.getD t' 0 = wSym X := (wFactOf hlink).1
        have hphit : phi (t' :: b :: s) = wStateLit.getD t' 0 + phi (b :: s) := by
          simp [phi]
        rw [htake]
        rw [hrhs_eq] at hphi
        rw [hphit, hw, hphi]
        simp [List.sum_append]
        omega

/-! ## The loop lemma -/

theorem chained_cons {st : List Nat} (h : Chained st) : ∃ h0 tl, st = h0 :: tl := by
  cases h
  · exact ⟨0, [], rfl⟩
  · exact ⟨_, _, rfl⟩

theorem chained_head_lt {u : Nat} {rest : List Nat} (h : Chained (u :: rest)) : u < 95 := by
  cases h with
  | base => decide
  | push t b s X hl _ => exact (wFactOf hl).2.2

theorem mkSyntax_good (toks : List Token) (ip : Nat) :
    isOutOfFuel (Except.error (mkSyntaxError toks ip)) = false ∧
    isCursorErr (Except.error (mkSyntaxError toks ip)) = false := by
  unfold mkSyntaxError
  rcases h1 : toks.get? ip with _ | tok <;> simp only [h1]
  · exact ⟨rfl, rfl⟩
  · rcases h2 : extractLine tok with _ | n <;> simp only [h2]
    · exact ⟨rfl, rfl⟩
    · exact ⟨rfl, rfl⟩

theorem phi_cons (t : Nat) (s : List Nat) :
    phi (t :: s) = wStateLit.getD t 0 + phi s := by
  simp [phi]

theorem loop_good : ∀ (fuel : Nat) (toks : List Token) (terms : List PyVal)
    (stack : List Nat) (ip : Nat),
    Chained stack →
    terms.length = toks.length + 1 →
    terms.get? toks.length = some (.vsym dollar) →
    ip ≤ toks.length →
    measureOf toks.length ip stack (terms.getD ip (.vsym dollar)) < fuel →
    isOutOfFuel ((litParser toks).parseLoop terms fuel stack ip) = false ∧
    isCursorErr ((litParser toks).parseLoop terms fuel stack ip) = false := by
  intro fuel
  induction fuel with
  | zero =>
    intro toks terms stack ip _ _ _ _ hM
    exact absurd hM (Nat.not_lt_zero _)
  | succ fuel ih =>
    intro toks terms stack ip hch hlen hdol hip hM
    rcases chained_cons hch with ⟨state, stail, rfl⟩
    have hlt : ip < terms.length := by omega
    rcases hga : terms.get? ip with _ | a
    · exact absurd (List.get?_eq_none.mp hga) (by omega)
    have hgd : terms.getD ip (.vsym dollar) = a := by
      rw [List.getD_eq_get?, hga]; rfl
    have hpa : (litParser toks).action = actionLit := rfl
    have hpp : (litParser toks).productions = productions := rfl
    have hpt : (litParser toks).tokens = toks := rfl
    rcases hact : lookupActionPy (actionLit.getD state []) a with _ | act
    · simp only [SLRParser.parseLoop, hpa, hpt, hga, hact]
      exact mkSyntax_good toks ip
    rcases a with s | nint
    swap
    · exact absurd hact (by simp [lookupActionPy])
    have hact' : lookupRow (actionLit.getD state []) s = some act := hact
    rcases act with t | p
    rotate_right
    · -- accept
      simp only [SLRParser.parseLoop, hpa, hga, hact]
      exact ⟨rfl, rfl⟩
    · -- shift
      rcases shiftFact hact' with ⟨htl, hw1, hnd⟩
      have hipn : ip < toks.length := by
        rcases Nat.lt_or_ge ip toks.length with h | h
        · exact h
        · have hie : ip = toks.length := by omega
          rw [hie] at hga
          rw [hga] at hdol
          cases hdol
          exact absurd rfl hnd
      have hch' : Chained (t :: state :: stail) := .push t state stail s htl hch
      have hmea : measureOf toks.length (ip + 1) (t :: state :: stail)
          (terms.getD (ip + 1) (.vsym dollar)) < fuel := by
        have hrb := rankBound (terms.getD (ip + 1) (.vsym dollar)) t
        have hphit : phi (t :: state :: stail) = 1 + phi (state :: stail) := by
          rw [phi_cons, hw1]
        unfold measureOf at hM ⊢
        rw [hgd] at hM
        rw [hphit]
        simp only [List.headD_cons] at hM ⊢
        omega
      simp only [SLRParser.parseLoop, hpa, hga, hact]
      exact ih toks terms (t :: state :: stail) (ip + 1) hch' hlen hdol (by omega) hmea
    · -- reduce
      rcases reduceFact hact' with ⟨pr, hpr, hitem, hlen8⟩
      have hdotc : itemDot (p * 8 + pr.2.length) = pr.2.length := by
        unfold itemDot; omega
      have hrhsc : itemRhs (p * 8 + pr.2.length) = pr.2 := by
        unfold itemRhs itemProd
        have : (p * 8 + pr.2.length) / 8 = p := by omega
        rw [this, List.getD_eq_get?, hpr]
        rfl
      rcases pop_ok pr.2.length hch rfl hitem hdotc with
        ⟨u, rest, hdrop, hchu, _, hfp, hphi⟩
      rw [hrhsc, List.take_length] at hfp hphi
      have hgg : ∀ u A, gotoGet (litParser toks) u A = mgoto u A := fun _ _ => rfl
      rcases hg : mgoto u pr.1 with _ | g
      · simp only [SLRParser.parseLoop, hpa, hpp, hga, hact, hpr, hdrop, hgg, hg]
        exact ⟨rfl, rfl⟩
      have htlg := gotoFact hg
      have hchg : Chained (g :: u :: rest) := .push g u rest pr.1 htlg hchu
      have hmea : measureOf toks.length ip (g :: u :: rest)
          (terms.getD ip (.vsym dollar)) < fuel := by
        have hwg : wStateLit.getD g 0 = wSym pr.1 := (wFactOf htlg).1
        have hmono := monoFact hpr
        have hrb := rankBound (terms.getD ip (.vsym dollar)) g
        rw [hgd] at hrb
        unfold measureOf at hM ⊢
        rw [hgd] at hM ⊢
        simp only [List.headD_cons] at hM ⊢
        rw [phi_cons, hwg]
        by_cases hdw : wSym pr.1 < (pr.2.map wSym).sum
        · omega
        · have hweq : wSym pr.1 = (pr.2.map wSym).sum := by omega
          have hnd : prodWeightDrop pr ≠ true := by
            simp [prodWeightDrop]
            omega
          have hmem : (s, Action.reduce p) ∈ aRow state := lookupRow_mem hact'
          have hrk := rankFact hpr hnd (chained_head_lt hchu) hfp hmem hg
          simp only [rnk] at hM hrb ⊢
          omega
      simp only [SLRParser.parseLoop, hpa, hpp, hga, hact, hpr, hdrop, hgg, hg]
      exact ih toks terms (g :: u :: rest) ip hchg hlen hdol hip hmea

/-! ## Concrete token streams used by the scenario claims -/

/-- `[(BEGIN, "begin", 1), (END, "end", 1), (SYMBOL, ".", 1)]` — the
three-tuple token stream of the spec scenario (codes 60, 61 stand for the
literal texts "begin" and "end"). -/
def threeTupleToks : List Token :=
  [[.vsym 31, .vsym 60, .vint 1], [.vsym 32, .vsym 61, .vint 1],
   [.vsym 53, .vsym 20, .vint 1]]

/-- `[(BEGIN, "begin"), (END, "end"), (SYMBOL, ".")]` — the same stream as
the pairs the parser actually unpacks. -/
def pairToks : List Token :=
  [[.vsym 31, .vsym 60], [.vsym 32, .vsym 61], [.vsym 53, .vsym 20]]

/-- Tokens of `var x ; begin x := 10 end` (no line information, no trailing
period): VAR "var", ID "x", SYMBOL ";", BEGIN "begin", ID "x", ASSIGN ":=",
NUMBER "10", END "end"; codes ≥ 60 stand for the literal texts. -/
def missingPeriodToks : List Token :=
  [[.vsym 27, .vsym 62], [.vsym 23, .vsym 63], [.vsym 53, .vsym 22],
   [.vsym 31, .vsym 64], [.vsym 23, .vsym 63], [.vsym 29, .vsym 65],
   [.vsym 25, .vsym 66], [.vsym 32, .vsym 67]]

/-! ## Further decidable facts for the table-shape claims -/

/-- Every accept entry sits at the end marker in a state holding the
completed start item (item code 1 = `S -> program .`). -/
def acceptOnlyB : Bool :=
  (List.range 95).all (fun i => (aRow i).all (fun e =>
    match e.2 with
    | .accept => (e.1 == dollar) && (sItems i).contains 1
    | _ => true))

/-- Every state holding the completed start item has the accept entry at
the end marker. -/
def acceptPresentB : Bool :=
  (List.range 95).all (fun i =>
    !((sItems i).contains 1) || (lookupRow (aRow i) dollar == some Action.accept))

/-- Every ACTION cell holds the action of the first assignment attempted
on it. -/
def firstWinsB : Bool :=
  (List.range 95).all (fun i => (aRow i).all (fun e =>
    (eventsLit.find? (fun ev => ev.1.1 == i && ev.1.2 == e.1)).map (·.2) == some e.2))

/-- Every attempted assignment leaves its cell defined. -/
def cellDefinedB : Bool :=
  eventsLit.all (fun ev => (lookupRow (aRow ev.1.1) ev.1.2).isSome)

set_option maxRecDepth 40000 in
set_option maxHeartbeats 4000000 in
theorem tableFactsHold :
    acceptOnlyB = true ∧ acceptPresentB = true ∧
    firstWinsB = true ∧ cellDefinedB = true :=
  ⟨rfl, rfl, rfl, rfl⟩

theorem acceptOnlyFact {i : Nat} {a : Sym}
    (h : lookupRow (actionLit.getD i []) a = some Action.accept) :
    a = dollar ∧ (1 : Nat) ∈ sItems i := by
  rcases actionRow_bound h with ⟨hi, hm⟩
  have hr := List.all_eq_true.mp tableFactsHold.1 i (List.mem_range.mpr hi)
  have he := List.all_eq_true.mp hr _ hm
  simp only at he
  rw [Bool.and_eq_true] at he
  rcases he with ⟨h1, h2⟩
  exact ⟨by simpa using h1, by simpa using h2⟩

theorem acceptPresentFact {i : Nat} (hi : i < 95) (h : (1 : Nat) ∈ sItems i) :
    lookupRow (aRow i) dollar = some Action.accept := by
  have hr := List.all_eq_true.mp tableFactsHold.2.1 i (List.mem_range.mpr hi)
  rw [Bool.or_eq_true] at hr
  rcases hr with h1 | h2
  · exact absurd h (by simpa using h1)
  · exact eq_of_beq h2

/-! ## The claims -/

/-- C1: in ACTION-table construction the first-assigned action wins: the
final table value of every (state, terminal) cell is exactly the action of
the first assignment attempted on that cell (so every later conflicting
shift or reduce attempt on an occupied cell is dropped, leaving the
earlier entry unchanged), and a cell holds an action exactly when some
assignment was attempted on it. -/
theorem actionCell_firstAssignment_wins : ∀ (i : Nat) (a : Sym),
    actionLookup i a =
      (assignEvents.find? (fun ev => ev.1.1 == i && ev.1.2 == a)).map (·.2) := by
  intro i a
  unfold actionLookup
  rw [actionEq, eventsEq]
  rcases hl : lookupRow (actionLit.getD i []) a with _ | v
  · rcases hf : eventsLit.find? (fun ev => ev.1.1 == i && ev.1.2 == a) with _ | ev
    · rw [hf]
      rfl
    · exfalso
      have hp := List.find?_some hf
      have hm := List.mem_of_find?_eq_some hf
      rw [Bool.and_eq_true] at hp
      rcases hp with ⟨h1, h2⟩
      have e1 : ev.1.1 = i := by simpa using h1
      have e2 : ev.1.2 = a := by simpa using h2
      have hd := List.all_eq_true.mp tableFactsHold.2.2.2 _ hm
      rw [e1, e2] at hd
      unfold aRow at hd
      rw [hl] at hd
      simp at hd
  · rcases actionRow_bound hl with ⟨hi, hm⟩
    have hr := List.all_eq_true.mp tableFactsHold.2.2.1 i (List.mem_range.mpr hi)
    have he := List.all_eq_true.mp hr _ hm
    have he' : (eventsLit.find? (fun ev => ev.1.1 == i && ev.1.2 == a)).map (·.2) =
        some v := by simpa using he
    exact he'.symm

set_option maxRecDepth 100000 in
set_option maxHeartbeats 4000000 in
/-- C2 counterexample: on the three-tuple token stream of the claim, token
classification fails to unpack `(sym_type, sym_val)` — parse raises
`ValueError`, it does not return `Accepted`. -/
theorem parse_threeTuples_unpackError :
    parseTokensWithSlr threeTupleToks = .error .unpackError := by
  unfold parseTokensWithSlr
  rw [initEq]
  rfl

set_option maxRecDepth 100000 in
set_option maxHeartbeats 4000000 in
/-- C2 (amended): with the same three tokens given as `(kind, text)` pairs,
parse returns `Accepted` (`True`). -/
theorem parse_beginEndPeriod_accepted :
    parseTokensWithSlr pairToks = .ok true := by
  unfold parseTokensWithSlr
  rw [initEq]
  rfl

set_option maxRecDepth 100000 in
set_option maxHeartbeats 4000000 in
/-- C3: on the 8 pair tokens of `var x ; begin x := 10 end` (missing the
trailing period, no line information), parse raises a syntax error whose
reported position is 8 — the end-marker position right after the last real
token, i.e. the number of tokens — with no line number. -/
theorem parse_missingPeriod_errorAtEnd :
    parseTokensWithSlr missingPeriodToks =
      .error (.syntaxAtPos none missingPeriodToks.length) ∧
    missingPeriodToks.length = 8 := by
  constructor
  · unfold parseTokensWithSlr
    rw [initEq]
    rfl
  · rfl

set_option maxRecDepth 100000 in
set_option maxHeartbeats 4000000 in
/-- C4: every state of the canonical collection is closure-complete:
`_closure` maps each discovered item set to itself. -/
theorem states_closure_complete :
    ∀ s ∈ states, closure nonterminals s = s := by
  rw [statesEq, nonterminalsEq]
  decide

set_option maxRecDepth 100000 in
set_option maxHeartbeats 4000000 in
/-- Witness for C4 at the initial state. -/
theorem states_closure_complete_witness :
    [0, 8, 16, 24, 32] ∈ states ∧
    closure nonterminals [0, 8, 16, 24, 32] = [0, 8, 16, 24, 32] := by
  have hm : [0, 8, 16, 24, 32] ∈ states := by
    rw [statesEq]
    decide
  exact ⟨hm, states_closure_complete _ hm⟩

/-- C5: the ACTION table has an accept entry exactly at the cells
`(state, '$')` whose state contains the completed augmented start item
`S -> program .` (item code 1); no other cell holds accept. -/
theorem accept_only_at_completed_start : ∀ (i : Nat) (a : Sym),
    actionLookup i a = some Action.accept ↔
      (a = dollar ∧ (1 : Nat) ∈ states.getD i []) := by
  intro i a
  rw [statesEq]
  constructor
  · intro h
    unfold actionLookup at h
    rw [actionEq] at h
    exact acceptOnlyFact h
  · rintro ⟨ha, hm⟩
    subst ha
    have hne : statesLit.getD i [] ≠ [] := by
      intro he; rw [he] at hm; exact absurd hm (List.not_mem_nil _)
    have hlen : statesLit.length = 95 := by rfl
    have hi : i < 95 := hlen ▸ getD_ne_nil_lt hne
    unfold actionLookup
    rw [actionEq]
    exact acceptPresentFact hi hm

set_option maxRecDepth 100000 in
set_option maxHeartbeats 4000000 in
/-- Witness for C5: state 1 holds the completed start item and accepts on
the end marker. -/
theorem accept_only_at_completed_start_witness :
    actionLookup 1 dollar = some Action.accept :=
  (accept_only_at_completed_start 1 dollar).mpr
    ⟨rfl, by rw [statesEq]; decide⟩

set_option maxRecDepth 100000 in
set_option maxHeartbeats 4000000 in
/-- C6: the FIRST and FOLLOW fixed points are idempotent — one more full
pass of either iteration over the converged sets changes nothing. -/
theorem first_follow_idempotent :
    firstPass terminals nonterminals FIRSTfinal = FIRSTfinal ∧
    followPass terminals nonterminals FIRSTfinal FOLLOWfinal = FOLLOWfinal := by
  rw [terminalsEq, nonterminalsEq, firstEq, followEq]
  exact ⟨rfl, rfl⟩

set_option maxRecDepth 100000 in
set_option maxHeartbeats 4000000 in
/-- C7: symbol classification computes the terminal set as exactly the
right-hand-side symbols minus the left-hand-side symbols, the nonterminal
set as exactly the left-hand-side symbols, and the two sets are
disjoint. -/
theorem symbol_classification_partition :
    terminals.toFinset =
      ((productions.map (·.2)).flatten).toFinset \ (productions.map (·.1)).toFinset ∧
    nonterminals.toFinset = (productions.map (·.1)).toFinset ∧
    terminals.all (fun s => !(nonterminals.contains s)) = true := by
  rw [terminalsEq, nonterminalsEq]
  refine ⟨by decide, by decide, by decide⟩

/-- C9: determinism — the construction is a pure function of the fixed
grammar (two instances built from any two token lists have identical
states and tables), and parsing a given token stream yields the same
verdict every time. -/
theorem parser_deterministic : ∀ toks1 toks2 : List Token,
    (SLRParser.init toks1).action = (SLRParser.init toks2).action ∧
    (SLRParser.init toks1).goto = (SLRParser.init toks2).goto ∧
    (SLRParser.init toks1).states = (SLRParser.init toks2).states ∧
    (SLRParser.init toks1).FIRST = (SLRParser.init toks2).FIRST ∧
    (SLRParser.init toks1).FOLLOW = (SLRParser.init toks2).FOLLOW ∧
    ∀ toks : List Token, (SLRParser.init toks).parse = (SLRParser.init toks).parse :=
  fun _ _ => ⟨rfl, rfl, rfl, rfl, rfl, fun _ => rfl⟩

/-! ## C8 and C10: termination and cursor safety -/

theorem mapTerminals_spec : ∀ toks : List Token,
    mapTerminals toks = .error .unpackError ∨
    ∃ terms, mapTerminals toks = .ok terms ∧ terms.length = toks.length := by
  intro toks
  induction toks with
  | nil => exact Or.inr ⟨[], rfl, rfl⟩
  | cons t ts ih =>
    have htok : (∃ a, tokenToTerminal t = .ok a) ∨
        tokenToTerminal t = .error .unpackError := by
      rcases t with _ | ⟨k, _ | ⟨v, _ | ⟨x, xs⟩⟩⟩
      · exact Or.inr rfl
      · exact Or.inr rfl
      · exact Or.inl ⟨_, rfl⟩
      · exact Or.inr rfl
    rcases htok with ⟨a, ha⟩ | ha
    · rcases ih with herr | ⟨terms, hok, hlen⟩
      · left
        simp only [mapTerminals, ha, herr]
      · right
        refine ⟨a :: terms, ?_, by simp [hlen]⟩
        simp only [mapTerminals, ha, hok]
    · left
      simp only [mapTerminals, ha]

/-- C8: the parse loop terminates on every finite token stream — the fuel
bound `parseFuel` is never exhausted, so parse always reaches accept or an
error after finitely many iterations. -/
theorem parse_always_terminates :
    ∀ toks : List Token, isOutOfFuel (parseTokensWithSlr toks) = false := by
  intro toks
  unfold parseTokensWithSlr
  rw [initEq]
  unfold SLRParser.parse
  have hpt : (litParser toks).tokens = toks := rfl
  rcases mapTerminals_spec toks with herr | ⟨terms, hok, hlen⟩
  · simp only [hpt, herr]
    rfl
  · simp only [hpt, hok]
    have hdol : (terms ++ [PyVal.vsym dollar]).get? toks.length = some (PyVal.vsym dollar) := by
      rw [← hlen]
      exact List.get?_concat_length terms _
    have hmea : measureOf toks.length 0 [0]
        ((terms ++ [PyVal.vsym dollar]).getD 0 (PyVal.vsym dollar)) < parseFuel toks.length := by
      have hrb := rankBound ((terms ++ [PyVal.vsym dollar]).getD 0 (PyVal.vsym dollar)) 0
      have hphi0 : phi [0] = 0 := rfl
      unfold measureOf parseFuel
      rw [hphi0]
      simp only [List.headD_cons]
      omega
    exact (loop_good (parseFuel toks.length) toks (terms ++ [PyVal.vsym dollar]) [0] 0
      Chained.base (by simp [hlen]) hdol (by omega) hmea).1

set_option maxRecDepth 100000 in
set_option maxHeartbeats 4000000 in
/-- C10: the end marker occurs in no right-hand side, hence no transition
and no shift action is labeled with it, and the input cursor never leaves
the token array extended with the end marker: `terms[ip]` is always in
bounds. -/
theorem cursor_always_in_bounds :
    productions.all (fun p => !(p.2.contains dollar)) = true ∧
    transitions.all (fun e => e.1.2 != dollar) = true ∧
    actionTable.all (fun row => row.all (fun e =>
      match e.2 with | Action.shift _ => e.1 != dollar | _ => true)) = true ∧
    ∀ toks : List Token, isCursorErr (parseTokensWithSlr toks) = false := by
  refine ⟨rfl, ?_, ?_, ?_⟩
  · rw [transitionsEq]
    rfl
  · rw [actionEq]
    rfl
  · intro toks
    unfold parseTokensWithSlr
    rw [initEq]
    unfold SLRParser.parse
    have hpt : (litParser toks).tokens = toks := rfl
    rcases mapTerminals_spec toks with herr | ⟨terms, hok, hlen⟩
    · simp only [hpt, herr]
      rfl
    · simp only [hpt, hok]
      have hdol : (terms ++ [PyVal.vsym dollar]).get? toks.length = some (PyVal.vsym dollar) := by
        rw [← hlen]
        exact List.get?_concat_length terms _
      have hmea : measureOf toks.length 0 [0]
          ((terms ++ [PyVal.vsym dollar]).getD 0 (PyVal.vsym dollar)) < parseFuel toks.length := by
        have hrb := rankBound ((terms ++ [PyVal.vsym dollar]).getD 0 (PyVal.vsym dollar)) 0
        have hphi0 : phi [0] = 0 := rfl
        unfold measureOf parseFuel
        rw [hphi0]
        simp only [List.headD_cons]
        omega
      exact (loop_good (parseFuel toks.length) toks (terms ++ [PyVal.vsym dollar]) [0] 0
        Chained.base (by simp [hlen]) hdol (by omega) hmea).2

end PL0
